import Mathlib

/-!
Shallow embedding of the Make2Manage simulation engine
(src/utils/gameInitialization.ts, src/hooks/useGameSimulation.ts,
src/utils/routeOptimization.ts, src/utils/index.ts, src/types).

JavaScript numbers are modelled as exact rationals (ℚ); the seeded PRNG
state is a natural number below 233280 after the first step.  Times are
milliseconds since the epoch, passed explicitly as a `now : ℚ` parameter
wherever the source calls Date.now(), and the ambient Math.random()
stream (used only to build event and decision id strings) is passed as
an explicit list of rationals.

The embedding computes with the core Rat operations (jsAdd, jsMul, ...)
so that concrete engine runs evaluate by kernel reduction; the jsOp
bridge lemmas identify each of them with the corresponding ambient
field operation on ℚ, which the theorem statements use.
-/

namespace M2M

/-! ### JS numbers as exact rationals -/

attribute [local semireducible] Rat.add Rat.sub Rat.mul Rat.inv

/-- JS addition. -/
def jsAdd (a b : ℚ) : ℚ := Rat.add a b

/-- JS subtraction. -/
def jsSub (a b : ℚ) : ℚ := Rat.sub a b

/-- JS multiplication. -/
def jsMul (a b : ℚ) : ℚ := Rat.mul a b

/-- JS division. -/
def jsDiv (a b : ℚ) : ℚ := Rat.div a b

/-- A JS integer-valued number obtained from a natural count. -/
def jsOfNat (n : Nat) : ℚ := mkRat n 1

/-- A JS integer-valued number obtained from an integer. -/
def jsOfInt (i : ℤ) : ℚ := mkRat i 1

/-- Math.floor. -/
def jsFloor (q : ℚ) : ℤ := q.floor

/-- Math.min of two numbers. -/
def jsMin (a b : ℚ) : ℚ := if a ≤ b then a else b

lemma jsAdd_eq (a b : ℚ) : jsAdd a b = a + b := by with_unfolding_all rfl

lemma jsSub_eq (a b : ℚ) : jsSub a b = a - b := by with_unfolding_all rfl

lemma jsMul_eq (a b : ℚ) : jsMul a b = a * b := by with_unfolding_all rfl

lemma jsDiv_eq (a b : ℚ) : jsDiv a b = a / b := by with_unfolding_all rfl

lemma jsOfInt_eq (i : ℤ) : jsOfInt i = (i : ℚ) := by rw [jsOfInt, Rat.mkRat_one]

lemma jsOfNat_eq (n : Nat) : jsOfNat n = (n : ℚ) := by
  rw [jsOfNat, Rat.mkRat_one, Int.cast_natCast]

lemma jsFloor_eq (q : ℚ) : jsFloor q = ⌊q⌋ := (Rat.floor_def' q).trans Rat.floor_def.symm

lemma jsMin_eq (a b : ℚ) : jsMin a b = min a b := by
  rw [jsMin, min_def]

/-! ### SeededRandom (src/utils/gameInitialization.ts lines 4-33) -/

/-- One step of the linear congruential recurrence in SeededRandom.next():
seed = (seed * 9301 + 49297) % 233280. -/
def nextSeed (s : Nat) : Nat := (s * 9301 + 49297) % 233280

/-- The value SeededRandom.next() returns after updating the seed:
seed / 233280. -/
def rngVal (s : Nat) : ℚ := jsDiv (jsOfNat s) 233280

/-- SeededRandom.next(): updates the seed and returns (value, new seed). -/
def rngNext (s : Nat) : ℚ × Nat := (rngVal (nextSeed s), nextSeed s)

/-- SeededRandom.between(min, max) = min + next() * (max - min). -/
def rngBetween (s : Nat) (lo hi : ℚ) : ℚ × Nat :=
  let p := rngNext s
  (jsAdd lo (jsMul p.1 (jsSub hi lo)), p.2)

/-- SeededRandom.choice(array) = array[Math.floor(next() * array.length)].
The result is none exactly when the JS read would yield undefined
(empty array). -/
def rngChoice {α : Type} (s : Nat) (l : List α) : Option α × Nat :=
  let p := rngNext s
  (l.get? (jsFloor (jsMul p.1 (jsOfNat l.length))).toNat, p.2)

/-- 32-bit signed wrap-around, as produced by the JS bit operations in
SeededRandom.hashCode (2147483648 = 2^31, 4294967296 = 2^32). -/
def wrap32 (x : ℤ) : ℤ := (x + 2147483648) % 4294967296 - 2147483648

/-- One iteration of SeededRandom.hashCode:
hash = ((hash << 5) - hash) + charCode, then hash = hash & hash
(coercion to a 32-bit integer).  The shift itself also wraps to 32 bits. -/
def hashStep (h : ℤ) (c : Nat) : ℤ := wrap32 (wrap32 (h * 32) - h + c)

/-- SeededRandom.hashCode(str) followed by Math.abs, giving the initial
seed for a string-seeded generator. -/
def jsHashCode (s : String) : Nat :=
  (s.data.foldl (fun h c => hashStep h c.toNat) 0).natAbs

/-- The SeededRandom constructor: hash the seed string when present,
otherwise fall back to an ambient nondeterministic seed
(Math.random() * 2147483647 in the source). -/
def resolveSeed (oseed : Option String) (ambient : Nat) : Nat :=
  match oseed with
  | some str => if str = "" then ambient else jsHashCode str
  | none => ambient

/-! ### Data model (src/types) -/

inductive OrderStatus
  | queued | processing | done | error | completedOnTime | completedLate
deriving DecidableEq, Repr

inductive SlaStatus
  | onTrack | atRisk | overdue
deriving DecidableEq, Repr

inductive DeptStatus
  | available | busy | overloaded | maintenance
deriving DecidableEq, Repr

inductive SessionStatus
  | setup | running | paused | completed
deriving DecidableEq, Repr

/-- Order.timestamps entries: deptId / start / optional end. -/
structure Stamp where
  deptId : ℤ
  start : ℚ
  endT : Option ℚ := none
deriving DecidableEq, Repr

/-- OperationProgress entries tracked per operation attempted. -/
structure OperationProgress where
  operationId : String
  operationName : String
  startTime : ℚ
  endTime : Option ℚ := none
  duration : ℚ
  completed : Bool
deriving DecidableEq, Repr

/-- The Order interface (src/types).  Optional TS fields are Options. -/
structure Order where
  id : String
  dueDate : ℚ
  route : List ℤ
  currentStepIndex : ℤ
  status : OrderStatus
  timestamps : List Stamp
  reworkCount : Nat
  createdAt : ℚ
  processingTime : Option ℚ := none
  processingTimeRemaining : Option ℚ := none
  actualLeadTime : Option ℚ := none
  slaStatus : Option SlaStatus := none
  completedAt : Option ℚ := none
  currentDepartment : Option ℤ := none
  currentOperationIndex : Option Nat := none
  operationProgress : Option (List OperationProgress) := none
  scheduledStartTime : Option ℚ := none
deriving DecidableEq, Repr

/-- DepartmentOperation (id, name, duration in minutes, description). -/
structure DeptOperation where
  id : String
  name : String
  duration : ℚ
  description : String
deriving DecidableEq, Repr

instance : Inhabited DeptOperation := ⟨⟨"", "", 0, ""⟩⟩

/-- The Department interface (src/types). -/
structure Department where
  id : ℤ
  name : String
  queue : List Order
  inProcess : Option Order := none
  utilization : ℚ
  avgCycleTime : ℚ
  totalProcessed : Nat
  capacity : ℚ
  efficiency : ℚ
  equipmentCondition : ℚ
  status : DeptStatus
  operations : List DeptOperation
  standardProcessingTime : ℚ
deriving DecidableEq, Repr

/-- GameSettings.  Rate and complexity tiers stay strings, as in the
source, so that the switch-statement default branches are kept. -/
structure GameSettings where
  sessionDuration : ℚ
  orderGenerationRate : String
  complexityLevel : String
  randomSeed : Option String := none
  gameSpeed : Nat
  enableEvents : Bool
deriving DecidableEq, Repr

structure GameSession where
  id : String
  duration : ℚ
  startTime : Option ℚ := none
  endTime : Option ℚ := none
  status : SessionStatus
  settings : GameSettings
  elapsedTime : ℚ
deriving DecidableEq, Repr

structure GameEvent where
  id : String
  type : String
  timestamp : ℚ
  message : String
  severity : String
  departmentId : Option ℤ := none
  orderId : Option String := none
deriving DecidableEq, Repr

/-- GamePerformance.  utilizationRates is a JS object keyed by numeric
department id, built by a fold over the department list; modelled as an
association list in build order. -/
structure GamePerformance where
  onTimeDeliveryRate : ℚ
  averageLeadTime : ℚ
  totalThroughput : Nat
  utilizationRates : List (ℤ × ℚ)
  bottleneckDepartment : Option ℤ := none
deriving DecidableEq, Repr

/-- Partial GameState snapshot stored inside decisions (Partial of
GameState).  The decisions field of the snapshot is not modelled — no
claim depends on it, and omitting it breaks the type-level recursion
between Decision and GameState. -/
structure PartialState where
  session : Option GameSession := none
  departments : Option (List Department) := none
  pendingOrders : Option (List Order) := none
  completedOrders : Option (List Order) := none
  rejectedOrders : Option (List Order) := none
  totalOrdersGenerated : Option Nat := none
  gameEvents : Option (List GameEvent) := none
  performance : Option GamePerformance := none
deriving DecidableEq, Repr

/-- Decision records (src/types, R13). -/
structure Decision where
  id : String
  timestamp : ℚ
  type : String
  description : String
  previousState : Option PartialState := none
  newState : Option PartialState := none
  orderId : Option String := none
  canUndo : Bool
deriving DecidableEq, Repr

/-- The GameState owned by the engine. -/
structure GameState where
  session : GameSession
  departments : List Department
  pendingOrders : List Order
  completedOrders : List Order
  rejectedOrders : List Order
  totalOrdersGenerated : Nat
  gameEvents : List GameEvent
  performance : GamePerformance
  decisions : List Decision
deriving DecidableEq, Repr

/-! ### SLA classification
(useGameSimulation.ts updateSLAStatus, src/utils/index.ts getSLAStatus) -/

/-- updateSLAStatus (useGameSimulation.ts): recompute slaStatus from the
current wall-clock time.  timeLeft < 0 gives overdue; otherwise
progress > 0.8 gives at-risk; otherwise on-track. -/
def updateSLAStatus (now : ℚ) (order : Order) : Order :=
  let timeLeft := jsSub order.dueDate now
  let totalTime := jsSub order.dueDate order.createdAt
  let elapsed := jsSub now order.createdAt
  let progress := jsDiv elapsed totalTime
  let sla : SlaStatus :=
    if timeLeft < 0 then .overdue
    else if progress > mkRat 8 10 then .atRisk
    else .onTrack
  { order with slaStatus := some sla }

/-- The SLAStatus view record returned by getSLAStatus
(src/utils/index.ts). -/
structure SLAStatusView where
  status : SlaStatus
  color : String
  text : String
deriving DecidableEq, Repr

/-- getSLAStatus (src/utils/index.ts lines 16-26): same classification
as updateSLAStatus, packaged with display colour and text. -/
def getSLAStatus (now : ℚ) (order : Order) : SLAStatusView :=
  let timeLeft := jsSub order.dueDate now
  let totalTime := jsSub order.dueDate order.createdAt
  let elapsed := jsSub now order.createdAt
  let progress := jsDiv elapsed totalTime
  if timeLeft < 0 then ⟨.overdue, "bg-red-500", "OVERDUE"⟩
  else if progress > mkRat 8 10 then ⟨.atRisk, "bg-amber-500", "AT RISK"⟩
  else ⟨.onTrack, "bg-green-500", "ON TRACK"⟩

lemma mkRat_8_10 : mkRat 8 10 = (8 : ℚ) / 10 := by
  rw [Rat.mkRat_eq_divInt, Rat.divInt_eq_div]
  norm_num

/-- C5: SLA boundary classification.  For an order whose dueDate is
after its createdAt: a negative timeLeft (dueDate < now) always yields
overdue regardless of progress; with timeLeft nonnegative, progress
exactly 0.8 yields on-track and progress strictly above 0.8 yields
at-risk.  Both the tick's updateSLAStatus and the display getSLAStatus
agree. -/
theorem c5_sla_boundary (now : ℚ) (o : Order) (hcd : o.createdAt < o.dueDate) :
    (o.dueDate < now →
      (updateSLAStatus now o).slaStatus = some .overdue ∧
      (getSLAStatus now o).status = .overdue) ∧
    (now ≤ o.dueDate →
      (now - o.createdAt) / (o.dueDate - o.createdAt) = 8 / 10 →
      (updateSLAStatus now o).slaStatus = some .onTrack ∧
      (getSLAStatus now o).status = .onTrack) ∧
    (now ≤ o.dueDate →
      (now - o.createdAt) / (o.dueDate - o.createdAt) > 8 / 10 →
      (updateSLAStatus now o).slaStatus = some .atRisk ∧
      (getSLAStatus now o).status = .atRisk) := by
  have hprog : jsDiv (jsSub now o.createdAt) (jsSub o.dueDate o.createdAt) =
      (now - o.createdAt) / (o.dueDate - o.createdAt) := by
    rw [jsDiv_eq, jsSub_eq, jsSub_eq]
  refine ⟨fun hlt => ?_, fun hge heq => ?_, fun hge hgt => ?_⟩
  · have h : jsSub o.dueDate now < 0 := by rw [jsSub_eq]; linarith
    constructor
    · simp only [updateSLAStatus, if_pos h]
    · simp only [getSLAStatus, if_pos h]
  · have h : ¬ jsSub o.dueDate now < 0 := by rw [jsSub_eq]; linarith
    have h2 : ¬ jsDiv (jsSub now o.createdAt) (jsSub o.dueDate o.createdAt) > mkRat 8 10 := by
      rw [hprog, heq, mkRat_8_10]
      exact lt_irrefl _
    constructor
    · simp only [updateSLAStatus, if_neg h, if_neg h2]
    · simp only [getSLAStatus, if_neg h, if_neg h2]
  · have h : ¬ jsSub o.dueDate now < 0 := by rw [jsSub_eq]; linarith
    have h2 : jsDiv (jsSub now o.createdAt) (jsSub o.dueDate o.createdAt) > mkRat 8 10 := by
      rw [hprog, mkRat_8_10]; exact hgt
    constructor
    · simp only [updateSLAStatus, if_neg h, if_pos h2]
    · simp only [getSLAStatus, if_neg h, if_pos h2]

/-- A small concrete order used by witnesses: created at time 0, due at
time 1000. -/
def sampleOrderA : Order :=
  { id := "ORD-001", dueDate := 1000, route := [1, 2], currentStepIndex := -1,
    status := .queued, timestamps := [], reworkCount := 0, createdAt := 0,
    slaStatus := some .onTrack }

/-- Witness for C5: at time 800 the sample order's progress is exactly
0.8 and it is classified on-track; at time 1001 it is overdue. -/
theorem c5_sla_boundary_witness :
    ((updateSLAStatus 800 sampleOrderA).slaStatus = some .onTrack ∧
      (getSLAStatus 800 sampleOrderA).status = .onTrack) ∧
    ((updateSLAStatus 1001 sampleOrderA).slaStatus = some .overdue ∧
      (getSLAStatus 1001 sampleOrderA).status = .overdue) :=
  ⟨(c5_sla_boundary 800 sampleOrderA (by norm_num [sampleOrderA])).2.1
      (by norm_num [sampleOrderA]) (by norm_num [sampleOrderA]),
    (c5_sla_boundary 1001 sampleOrderA (by norm_num [sampleOrderA])).1
      (by norm_num [sampleOrderA])⟩

/-! ### Random route generation (gameInitialization.ts lines 76-106) -/

/-- The do-while loop body inside generateRandomRoute: sample a
department from [1,2,3,4]; while the route is nonempty, its last entry
equals the sample, and next() < 0.9, resample.  The loop is fueled; on
fuel exhaustion (which would be an infinite loop in the source) a dummy
department 0 is returned. -/
def pickDept (fuel : Nat) (s : Nat) (route : List ℤ) : ℤ × Nat :=
  match fuel with
  | 0 => (0, s)
  | fuel + 1 =>
    let c := rngChoice s ([1, 2, 3, 4] : List ℤ)
    let nextDept := c.1.getD 0
    if route ≠ [] ∧ route.getLast? = some nextDept then
      let p := rngNext c.2
      if p.1 < mkRat 9 10 then pickDept fuel p.2 route
      else (nextDept, p.2)
    else (nextDept, c.2)

/-- generateRandomRoute: pick a tier-dependent length, then sample that
many departments, rejecting immediate repeats 90% of the time. -/
def generateRandomRoute (s : Nat) (complexityLevel : String) : List ℤ × Nat :=
  let rl :=
    if complexityLevel = "beginner" then
      let p := rngBetween s 2 4
      ((jsFloor p.1).toNat, p.2)
    else if complexityLevel = "intermediate" then
      let p := rngBetween s 3 6
      ((jsFloor p.1).toNat, p.2)
    else if complexityLevel = "advanced" then
      let p := rngBetween s 4 8
      ((jsFloor p.1).toNat, p.2)
    else (4, s)
  (List.range rl.1).foldl
    (fun acc _ =>
      let p := pickDept 1000 acc.2 acc.1
      (acc.1 ++ [p.1], p.2))
    (([] : List ℤ), rl.2)

/-! ### Route optimizer (src/utils/routeOptimization.ts) -/

structure DepartmentPathNode where
  id : ℤ
  name : String
  operations : List String
  avgProcessingTime : ℚ
  utilization : ℚ
  reliability : ℚ
  cost : ℚ
deriving DecidableEq, Repr

/-- RouteGenerationOptions.  The optional TS booleans default to
undefined, which the source only ever tests for truthiness, so they are
Bools defaulting to false. -/
structure RouteGenerationOptions where
  complexityLevel : String
  prioritizeSpeed : Bool := false
  prioritizeCost : Bool := false
  prioritizeReliability : Bool := false
  avoidBottlenecks : Bool := false
  customerTier : Option String := none
  orderPriority : Option String := none
deriving DecidableEq, Repr

/-- getProcessFlowTemplates (routeOptimization.ts lines 81-106). -/
def getProcessFlowTemplates (complexityLevel : String) : List (List String) :=
  if complexityLevel = "beginner" then
    [["prep", "assembly", "quality"],
     ["cutting", "assembly", "packaging"],
     ["prep", "quality", "packaging"]]
  else if complexityLevel = "intermediate" then
    [["cutting", "prep", "assembly", "quality", "packaging"],
     ["prep", "cutting", "assembly", "assembly", "quality"],
     ["cutting", "assembly", "quality", "assembly", "packaging"],
     ["prep", "assembly", "quality", "packaging", "quality"]]
  else if complexityLevel = "advanced" then
    [["cutting", "prep", "assembly", "quality", "assembly", "quality", "packaging"],
     ["prep", "cutting", "assembly", "assembly", "quality", "assembly", "packaging"],
     ["cutting", "prep", "assembly", "quality", "assembly", "quality", "assembly", "packaging"],
     ["prep", "cutting", "assembly", "quality", "prep", "assembly", "quality", "packaging"]]
  else [["cutting", "assembly", "quality", "packaging"]]

/-- JS String.prototype.toLowerCase on the ASCII names in play. -/
def jsToLower (s : String) : String := s.map Char.toLower

/-- JS s.includes(sub): substring containment. -/
def jsIncludes (s sub : String) : Bool := decide (sub.data <:+: s.data)

/-- JS s.split(' ')[0]: the prefix before the first space. -/
def firstWord (s : String) : String := ⟨s.data.takeWhile (fun c => c ≠ ' ')⟩

/-- The capability test inside generateBaseRoute: an operation name
contains the stage name, or the stage name contains the operation
name's first word (both lower-cased). -/
def capableFor (stage : String) (dept : DepartmentPathNode) : Bool :=
  dept.operations.any (fun op =>
    jsIncludes (jsToLower op) (jsToLower stage) ||
    jsIncludes (jsToLower stage) (firstWord (jsToLower op)))

/-- generateBaseRoute: one department per process-flow stage, sampled
among capable departments, falling back to any department.  The getD 0
default is the undefined read the source would perform on an empty
department list. -/
def generateBaseRoute (processFlow : List String)
    (departments : List DepartmentPathNode) (s : Nat) : List ℤ × Nat :=
  processFlow.foldl
    (fun acc requiredOperation =>
      let capableDepartments := departments.filter (capableFor requiredOperation)
      if capableDepartments.length > 0 then
        let c := rngChoice acc.2 capableDepartments
        (acc.1 ++ [(c.1.map (fun d => d.id)).getD 0], c.2)
      else
        let c := rngChoice acc.2 departments
        (acc.1 ++ [(c.1.map (fun d => d.id)).getD 0], c.2))
    ([], s)

/-- Lookup in the deptMap objects the passes build with reduce: numeric
keys, later entries overwrite earlier ones, hence the reversed find. -/
def nodeLookup (departments : List DepartmentPathNode) (deptId : ℤ) :
    Option DepartmentPathNode :=
  departments.reverse.find? (fun d => d.id = deptId)

/-- JS Array.prototype.reduce without an initial value, keeping the
earlier element on ties. -/
def reduceBy (better : DepartmentPathNode → DepartmentPathNode → Bool) :
    List DepartmentPathNode → Option DepartmentPathNode
  | [] => none
  | x :: xs => some (xs.foldl (fun best current => if better current best then current else best) x)

/-- optimizeForSpeed: substitute each step by the fastest alternative
sharing an operation, when strictly faster. -/
def optimizeForSpeed (route : List ℤ) (departments : List DepartmentPathNode) : List ℤ :=
  route.map (fun deptId =>
    match nodeLookup departments deptId with
    | none => deptId
    | some currentDept =>
      let alternatives := departments.filter (fun dept =>
        decide (dept.id ≠ deptId) &&
        decide (dept.avgProcessingTime < currentDept.avgProcessingTime) &&
        dept.operations.any (fun op => currentDept.operations.contains op))
      match reduceBy (fun c b => decide (c.avgProcessingTime < b.avgProcessingTime)) alternatives with
      | some fastest => fastest.id
      | none => deptId)

/-- optimizeForCost: same substitution keyed on the derived cost. -/
def optimizeForCost (route : List ℤ) (departments : List DepartmentPathNode) : List ℤ :=
  route.map (fun deptId =>
    match nodeLookup departments deptId with
    | none => deptId
    | some currentDept =>
      let alternatives := departments.filter (fun dept =>
        decide (dept.id ≠ deptId) &&
        decide (dept.cost < currentDept.cost) &&
        dept.operations.any (fun op => currentDept.operations.contains op))
      match reduceBy (fun c b => decide (c.cost < b.cost)) alternatives with
      | some cheapest => cheapest.id
      | none => deptId)

/-- optimizeForReliability: substitute for strictly higher equipment
condition. -/
def optimizeForReliability (route : List ℤ) (departments : List DepartmentPathNode) : List ℤ :=
  route.map (fun deptId =>
    match nodeLookup departments deptId with
    | none => deptId
    | some currentDept =>
      let alternatives := departments.filter (fun dept =>
        decide (dept.id ≠ deptId) &&
        decide (dept.reliability > currentDept.reliability) &&
        dept.operations.any (fun op => currentDept.operations.contains op))
      match reduceBy (fun c b => decide (c.reliability > b.reliability)) alternatives with
      | some mostReliable => mostReliable.id
      | none => deptId)

/-- avoidBottleneckDepartments: when the current step's utilization
exceeds 80, substitute the least-utilized alternative below 70. -/
def avoidBottleneckDepartments (route : List ℤ) (departments : List DepartmentPathNode) : List ℤ :=
  route.map (fun deptId =>
    match nodeLookup departments deptId with
    | none => deptId
    | some currentDept =>
      if currentDept.utilization > 80 then
        let alternatives := departments.filter (fun dept =>
          decide (dept.id ≠ deptId) &&
          decide (dept.utilization < 70) &&
          dept.operations.any (fun op => currentDept.operations.contains op))
        match reduceBy (fun c b => decide (c.utilization < b.utilization)) alternatives with
        | some leastUtilized => leastUtilized.id
        | none => deptId
      else deptId)

/-- The weighted score used by addPriorityRouting:
0.4 * reliability + 0.4 * (100 - utilization) + 0.2 * (100 / cost). -/
def priorityScore (d : DepartmentPathNode) : ℚ :=
  jsAdd (jsAdd (jsMul d.reliability (mkRat 4 10))
      (jsMul (jsSub 100 d.utilization) (mkRat 4 10)))
    (if d.cost > 0 then jsMul (jsDiv 100 d.cost) (mkRat 2 10) else 0)

/-- addPriorityRouting: substitute when the best alternative's score
beats the current step's score by more than 10%. -/
def addPriorityRouting (route : List ℤ) (departments : List DepartmentPathNode) : List ℤ :=
  route.map (fun deptId =>
    match nodeLookup departments deptId with
    | none => deptId
    | some currentDept =>
      let alternatives := departments.filter (fun dept =>
        decide (dept.id ≠ deptId) &&
        dept.operations.any (fun op => currentDept.operations.contains op))
      match reduceBy (fun c b => decide (priorityScore c > priorityScore b)) alternatives with
      | some bestAlternative =>
        if priorityScore bestAlternative > jsMul (priorityScore currentDept) (mkRat 11 10) then
          bestAlternative.id
        else deptId
      | none => deptId)

/-- generateOptimizedRoute (routeOptimization.ts lines 33-78). -/
def generateOptimizedRoute (s : Nat) (departments : List Department)
    (options : RouteGenerationOptions) : List ℤ × Nat :=
  let departmentNodes := departments.map (fun dept =>
    ({ id := dept.id, name := dept.name,
       operations := dept.operations.map (fun op => op.name),
       avgProcessingTime := dept.standardProcessingTime,
       utilization := dept.utilization,
       reliability := dept.equipmentCondition,
       cost := jsMul dept.standardProcessingTime (mkRat 25 10) } : DepartmentPathNode))
  let processFlows := getProcessFlowTemplates options.complexityLevel
  let c := rngChoice s processFlows
  match c.1 with
  | none => ([], c.2)
  | some selectedFlow =>
    let br := generateBaseRoute selectedFlow departmentNodes c.2
    let r1 := if options.prioritizeSpeed then optimizeForSpeed br.1 departmentNodes else br.1
    let r2 := if options.prioritizeCost then optimizeForCost r1 departmentNodes else r1
    let r3 := if options.prioritizeReliability then optimizeForReliability r2 departmentNodes else r2
    let r4 := if options.avoidBottlenecks then avoidBottleneckDepartments r3 departmentNodes else r3
    let r5 := if options.customerTier = some "vip" ∨ options.orderPriority = some "urgent" then
        addPriorityRouting r4 departmentNodes
      else r4
    (r5, br.2)

/-! ### Route length facts -/

lemma rngVal_nonneg (s : Nat) : 0 ≤ rngVal s := by
  rw [rngVal, jsDiv_eq, jsOfNat_eq]
  positivity

lemma rngVal_nextSeed_lt_one (s : Nat) : rngVal (nextSeed s) < 1 := by
  rw [rngVal, jsDiv_eq, jsOfNat_eq, div_lt_one (by norm_num)]
  have h : nextSeed s < 233280 := Nat.mod_lt _ (by norm_num)
  exact_mod_cast h

lemma foldl_append_one_length {β : Type}
    (step : List ℤ × Nat → β → List ℤ × Nat)
    (h : ∀ acc b, ((step acc b).1).length = acc.1.length + 1) :
    ∀ (l : List β) (acc : List ℤ × Nat),
      ((l.foldl step acc).1).length = acc.1.length + l.length := by
  intro l
  induction l with
  | nil => intro acc; simp
  | cons x xs ih =>
    intro acc
    simp only [List.foldl_cons, ih (step acc x), h acc x, List.length_cons]
    omega

lemma generateRandomRoute_length (s : Nat) (cl : String) :
    (generateRandomRoute s cl).1.length =
      (if cl = "beginner" then (jsFloor (rngBetween s 2 4).1).toNat
       else if cl = "intermediate" then (jsFloor (rngBetween s 3 6).1).toNat
       else if cl = "advanced" then (jsFloor (rngBetween s 4 8).1).toNat
       else 4) := by
  have h := foldl_append_one_length
    (fun (acc : List ℤ × Nat) (_ : Nat) =>
      let p := pickDept 1000 acc.2 acc.1
      (acc.1 ++ [p.1], p.2))
    (by intro acc b; simp)
  unfold generateRandomRoute
  split_ifs <;> simp [h, List.length_range]

lemma rngBetween_nat_bounds (s : Nat) (lo hi : ℚ) (hlh : lo < hi) :
    lo ≤ (rngBetween s lo hi).1 ∧ (rngBetween s lo hi).1 < hi := by
  have h0 : 0 ≤ rngVal (nextSeed s) := rngVal_nonneg _
  have h1 : rngVal (nextSeed s) < 1 := rngVal_nextSeed_lt_one s
  unfold rngBetween rngNext
  simp only [jsAdd_eq, jsMul_eq, jsSub_eq]
  constructor
  · nlinarith
  · nlinarith

lemma generateBaseRoute_length (flow : List String)
    (departments : List DepartmentPathNode) (s : Nat) :
    (generateBaseRoute flow departments s).1.length = flow.length := by
  have h := foldl_append_one_length
    (fun (acc : List ℤ × Nat) (requiredOperation : String) =>
      let capableDepartments := departments.filter (capableFor requiredOperation)
      if capableDepartments.length > 0 then
        let c := rngChoice acc.2 capableDepartments
        (acc.1 ++ [(c.1.map (fun d => d.id)).getD 0], c.2)
      else
        let c := rngChoice acc.2 departments
        (acc.1 ++ [(c.1.map (fun d => d.id)).getD 0], c.2))
    (by intro acc b; by_cases hc : (departments.filter (capableFor b)).length > 0 <;> simp [hc])
  unfold generateBaseRoute
  simpa using h flow ([], s)

lemma optimizeForSpeed_length (r : List ℤ) (d : List DepartmentPathNode) :
    (optimizeForSpeed r d).length = r.length := by
  simp [optimizeForSpeed]

lemma optimizeForCost_length (r : List ℤ) (d : List DepartmentPathNode) :
    (optimizeForCost r d).length = r.length := by
  simp [optimizeForCost]

lemma optimizeForReliability_length (r : List ℤ) (d : List DepartmentPathNode) :
    (optimizeForReliability r d).length = r.length := by
  simp [optimizeForReliability]

lemma avoidBottleneckDepartments_length (r : List ℤ) (d : List DepartmentPathNode) :
    (avoidBottleneckDepartments r d).length = r.length := by
  simp [avoidBottleneckDepartments]

lemma addPriorityRouting_length (r : List ℤ) (d : List DepartmentPathNode) :
    (addPriorityRouting r d).length = r.length := by
  simp [addPriorityRouting]

/-- The optimized route is exactly as long as the selected process-flow
template: the base route pushes one department per stage and every
optimization pass is a map. -/
lemma generateOptimizedRoute_length (s : Nat) (depts : List Department)
    (opts : RouteGenerationOptions) (flow : List String)
    (hc : (rngChoice s (getProcessFlowTemplates opts.complexityLevel)).1 = some flow) :
    (generateOptimizedRoute s depts opts).1.length = flow.length := by
  simp only [generateOptimizedRoute]
  rw [hc]
  split_ifs <;>
    simp [optimizeForSpeed_length, optimizeForCost_length, optimizeForReliability_length,
      avoidBottleneckDepartments_length, addPriorityRouting_length, generateBaseRoute_length]

/-- rngChoice on a nonempty list always yields an element of the list. -/
lemma rngChoice_mem {α : Type} (s : Nat) (l : List α) (hl : l ≠ []) :
    ∃ x ∈ l, (rngChoice s l).1 = some x := by
  have h0 : 0 ≤ rngVal (nextSeed s) := rngVal_nonneg _
  have h1 : rngVal (nextSeed s) < 1 := rngVal_nextSeed_lt_one s
  have hlen : 0 < (l.length : ℚ) := by
    have : 0 < l.length := List.length_pos.mpr hl
    exact_mod_cast this
  have hidx : (jsFloor (jsMul (rngVal (nextSeed s)) (jsOfNat l.length))).toNat < l.length := by
    have hf : jsFloor (jsMul (rngVal (nextSeed s)) (jsOfNat l.length)) < (l.length : ℤ) := by
      rw [jsFloor_eq, jsMul_eq, jsOfNat_eq]
      apply Int.floor_lt.mpr
      push_cast
      nlinarith
    have hf0 : 0 ≤ jsFloor (jsMul (rngVal (nextSeed s)) (jsOfNat l.length)) := by
      rw [jsFloor_eq, jsMul_eq, jsOfNat_eq]
      exact Int.floor_nonneg.mpr (mul_nonneg h0 (by positivity))
    omega
  rcases List.get?_eq_get hidx with hg
  exact ⟨l.get ⟨_, hidx⟩, List.get_mem _ _ _, by simpa [rngChoice, rngNext] using hg⟩

lemma floor_between_toNat_bounds (s : Nat) (lo hi : Nat) (h : lo < hi) :
    lo ≤ (jsFloor (rngBetween s lo hi).1).toNat ∧
    (jsFloor (rngBetween s lo hi).1).toNat < hi := by
  obtain ⟨h1, h2⟩ := rngBetween_nat_bounds s lo hi (by exact_mod_cast h)
  have hf1 : (lo : ℤ) ≤ jsFloor (rngBetween s lo hi).1 := by
    rw [jsFloor_eq]
    exact Int.le_floor.mpr (by exact_mod_cast h1)
  have hf2 : jsFloor (rngBetween s (lo : ℚ) hi).1 < (hi : ℤ) := by
    rw [jsFloor_eq]
    exact Int.floor_lt.mpr (by exact_mod_cast h2)
  omega

/-- generateSampleDepartments (src/utils/index.ts): the four static
sample departments, with empty operation lists. -/
def generateSampleDepartments : List Department :=
  [{ id := 1, name := "Department 1", queue := [], utilization := 65, avgCycleTime := 45,
     totalProcessed := 23, capacity := 3, efficiency := 1, equipmentCondition := mkRat 98 100,
     status := .available, operations := [], standardProcessingTime := 45 },
   { id := 2, name := "Department 2", queue := [], utilization := 82, avgCycleTime := 38,
     totalProcessed := 18, capacity := 2, efficiency := mkRat 11 10,
     equipmentCondition := mkRat 95 100,
     status := .busy, operations := [], standardProcessingTime := 38 },
   { id := 3, name := "Department 3", queue := [], utilization := 58, avgCycleTime := 52,
     totalProcessed := 31, capacity := 4, efficiency := mkRat 9 10, equipmentCondition := 1,
     status := .available, operations := [], standardProcessingTime := 52 },
   { id := 4, name := "Department 4", queue := [], utilization := 91, avgCycleTime := 28,
     totalProcessed := 15, capacity := 1, efficiency := mkRat 12 10,
     equipmentCondition := mkRat 97 100,
     status := .overloaded, operations := [], standardProcessingTime := 28 }]

/-- C6 counterexample: with stream state 10 the optimizer picks the
third advanced process-flow template, which has eight stages, so the
generated route has length 8 — outside the claimed [4,8) bound. -/
theorem c6_counterexample :
    (generateOptimizedRoute 10 generateSampleDepartments
        { complexityLevel := "advanced" }).1.length = 8 ∧
    ¬ (generateOptimizedRoute 10 generateSampleDepartments
        { complexityLevel := "advanced" }).1.length < 8 := by
  constructor <;> decide

/-- C6 as amended: the random route generator respects the claimed
bounds (beginner length in [2,4), advanced in [4,8)); the optimized
generator produces exactly 3 steps for beginner (inside [2,4)) but 7 or
8 steps for advanced — within [4,9), not [4,8). -/
theorem c6_route_bounds_amended :
    (∀ s : Nat,
      2 ≤ (generateRandomRoute s "beginner").1.length ∧
      (generateRandomRoute s "beginner").1.length < 4 ∧
      4 ≤ (generateRandomRoute s "advanced").1.length ∧
      (generateRandomRoute s "advanced").1.length < 8) ∧
    (∀ (s : Nat) (depts : List Department) (opts : RouteGenerationOptions),
      (opts.complexityLevel = "beginner" →
        (generateOptimizedRoute s depts opts).1.length = 3) ∧
      (opts.complexityLevel = "advanced" →
        7 ≤ (generateOptimizedRoute s depts opts).1.length ∧
        (generateOptimizedRoute s depts opts).1.length ≤ 8)) := by
  constructor
  · intro s
    have hb := floor_between_toNat_bounds s 2 4 (by norm_num)
    have ha := floor_between_toNat_bounds s 4 8 (by norm_num)
    have e1 : (generateRandomRoute s "beginner").1.length =
        (jsFloor (rngBetween s 2 4).1).toNat := by
      rw [generateRandomRoute_length, if_pos rfl]
    have e2 : (generateRandomRoute s "advanced").1.length =
        (jsFloor (rngBetween s 4 8).1).toNat := by
      rw [generateRandomRoute_length, if_neg (by decide), if_neg (by decide), if_pos rfl]
    refine ⟨?_, ?_, ?_, ?_⟩
    · rw [e1]; exact hb.1
    · rw [e1]; exact hb.2
    · rw [e2]; exact ha.1
    · rw [e2]; exact ha.2
  · intro s depts opts
    constructor
    · intro hcl
      obtain ⟨flow, hmem, hc⟩ := rngChoice_mem s (getProcessFlowTemplates opts.complexityLevel)
        (by rw [hcl]; decide)
      rw [generateOptimizedRoute_length s depts opts flow hc]
      rw [hcl] at hmem
      fin_cases hmem <;> rfl
    · intro hcl
      obtain ⟨flow, hmem, hc⟩ := rngChoice_mem s (getProcessFlowTemplates opts.complexityLevel)
        (by rw [hcl]; decide)
      rw [generateOptimizedRoute_length s depts opts flow hc]
      rw [hcl] at hmem
      fin_cases hmem <;> exact ⟨by norm_num, by norm_num⟩

/-- Witness for C6's amended theorem: a beginner optimized route over
an empty department list has exactly 3 steps, and a concrete advanced
one has 7 or 8. -/
theorem c6_route_bounds_witness :
    (generateOptimizedRoute 0 [] { complexityLevel := "beginner" }).1.length = 3 ∧
    7 ≤ (generateOptimizedRoute 3 generateSampleDepartments
        { complexityLevel := "advanced" }).1.length :=
  ⟨(c6_route_bounds_amended.2 0 [] { complexityLevel := "beginner" }).1 rfl,
    ((c6_route_bounds_amended.2 3 generateSampleDepartments
        { complexityLevel := "advanced" }).2 rfl).1⟩

/-! ### Department operation state machine
(useGameSimulation.ts processDepartmentUpdates; the same function body
appears in both versions of the hook) -/

/-- calculateProcessingTime (useGameSimulation.ts lines 13-21):
standard time in ms scaled by efficiency, equipment condition and a
route-length complexity factor, floored. -/
def calculateProcessingTime (order : Order) (department : Department) : ℚ :=
  let baseTime := jsMul (jsMul department.standardProcessingTime 60) 1000
  let efficiencyFactor := department.efficiency
  let equipmentFactor := department.equipmentCondition
  let complexityFactor : ℚ :=
    if order.route.length > 5 then mkRat 12 10
    else if order.route.length < 3 then mkRat 8 10
    else 1
  jsOfInt (jsFloor (jsMul (jsMul (jsMul baseTime efficiencyFactor) equipmentFactor)
    complexityFactor))

/-- The in-place update of the first operationProgress entry matching
the given operation id (findIndex followed by mutation in the source). -/
def markFirst (now : ℚ) (opId : String) : List OperationProgress → List OperationProgress
  | [] => []
  | p :: ps =>
    if p.operationId = opId then { p with completed := true, endTime := some now } :: ps
    else p :: markFirst now opId ps

/-- Close the last timestamp span when it is open (lastTimestamp exists
and has no end). -/
def closeLastStamp (now : ℚ) (ts : List Stamp) : List Stamp :=
  match ts.getLast? with
  | some last => if last.endT = none then ts.dropLast ++ [{ last with endT := some now }] else ts
  | none => ts

/-- Push an order onto the queue of the first department in the list
with the given id — the find-then-mutate pattern of the source. -/
def pushToFirst (nid : ℤ) (o : Order) : List Department → List Department
  | [] => []
  | d :: ds =>
    if d.id = nid then { d with queue := d.queue ++ [o] } :: ds
    else d :: pushToFirst nid o ds

/-- Accumulator of the departments.forEach loop in
processDepartmentUpdates, including the ambient Math.random() draws
consumed by event id strings. -/
structure PDUAcc where
  updatedDepartments : List Department
  completedOrders : List Order
  events : List GameEvent
  rnds : List ℚ
deriving DecidableEq, Repr

/-- Pop one ambient Math.random() draw. -/
def drawRnd (rnds : List ℚ) : ℚ × List ℚ := (rnds.headD 0, rnds.tail)

/-- Event id strings: event-(Date.now())-(Math.random()). -/
def mkEventId (now : ℚ) (r : ℚ) : String := "event-" ++ toString now ++ "-" ++ toString r

/-- The in-process half of the per-department body: decrement the
current operation's remaining time by 1000 ms; on reaching ≤ 0, mark
the operation completed and either start the next operation, hand the
order to the next route department, or finish it.  Corresponds to
lines 96-197 of useGameSimulation.ts. -/
def advanceInProcess (now : ℚ) (departments : List Department) (dept : Department)
    (acc : PDUAcc) : Department × PDUAcc :=
  match dept.inProcess with
  | none => (dept, acc)
  | some order =>
    let timeRemaining := jsSub (order.processingTimeRemaining.getD 0) 1000
    if timeRemaining ≤ 0 then
      let currentOpIndex := order.currentOperationIndex.getD 0
      let order1 :=
        match dept.operations.get? currentOpIndex with
        | some currentOperation =>
          match order.operationProgress with
          | some ps =>
            { order with operationProgress := some (markFirst now currentOperation.id ps) }
          | none => order
        | none => order
      let nextOpIndex := currentOpIndex + 1
      if nextOpIndex < dept.operations.length then
        let nextOperation := dept.operations.getD nextOpIndex default
        let nextOpTime := jsMul (jsMul nextOperation.duration 60) 1000
        ({ dept with inProcess := some { order1 with
            currentOperationIndex := some nextOpIndex,
            processingTime := some nextOpTime,
            processingTimeRemaining := some nextOpTime,
            operationProgress := some (order1.operationProgress.getD [] ++
              [{ operationId := nextOperation.id, operationName := nextOperation.name,
                 startTime := now, duration := nextOperation.duration, completed := false }]) } },
          acc)
      else
        let completedOrder := { order1 with
          processingTimeRemaining := some 0
          timestamps := closeLastStamp now order1.timestamps }
        let nextStepIndex := completedOrder.currentStepIndex + 1
        if nextStepIndex ≥ (completedOrder.route.length : ℤ) then
          let finished := { completedOrder with
            status := if completedOrder.slaStatus = some SlaStatus.overdue then
                OrderStatus.completedLate
              else OrderStatus.completedOnTime,
            completedAt := some now,
            actualLeadTime :=
              some (jsOfInt (jsFloor (jsDiv (jsSub now completedOrder.createdAt)
                (jsMul 60 1000)))) }
          let p := drawRnd acc.rnds
          let ev : GameEvent :=
            { id := mkEventId now p.1, type := "order-completed", timestamp := now,
              message := "Order " ++ finished.id ++ " completed " ++
                (if finished.status = OrderStatus.completedOnTime then "on time" else "late"),
              severity := if finished.status = OrderStatus.completedOnTime then "success"
                else "warning",
              orderId := some finished.id, departmentId := some dept.id }
          ({ dept with inProcess := none, totalProcessed := dept.totalProcessed + 1 },
            { acc with
              completedOrders := acc.completedOrders ++ [finished]
              events := acc.events ++ [ev]
              rnds := p.2 })
        else
          let nid? := if 0 ≤ nextStepIndex then completedOrder.route.get? nextStepIndex.toNat
            else none
          match nid? with
          | none =>
            ({ dept with inProcess := none, totalProcessed := dept.totalProcessed + 1 }, acc)
          | some nextDeptId =>
            match departments.find? (fun d => d.id = nextDeptId) with
            | none =>
              ({ dept with inProcess := none, totalProcessed := dept.totalProcessed + 1 }, acc)
            | some nextDept =>
              let moved := { completedOrder with
                currentStepIndex := nextStepIndex,
                currentDepartment := some nextDeptId,
                status := OrderStatus.queued,
                processingTime := some (calculateProcessingTime completedOrder nextDept),
                currentOperationIndex := some 0,
                operationProgress := some [] }
              let updList :=
                if (acc.updatedDepartments.find? (fun d => d.id = nextDeptId)).isSome then
                  pushToFirst nextDeptId moved acc.updatedDepartments
                else acc.updatedDepartments ++ [{ nextDept with queue := [moved] }]
              ({ dept with inProcess := none, totalProcessed := dept.totalProcessed + 1 },
                { acc with updatedDepartments := updList })
    else
      ({ dept with inProcess := some { order with processingTimeRemaining := some timeRemaining } },
        acc)

/-- Dequeue the head of the queue into the idle inProcess slot and open
its timestamp span (lines 199-223 of useGameSimulation.ts).  The getD
default on operations[0] stands for the undefined read the source would
perform on a department with no operations. -/
def startNextOrder (now : ℚ) (dept : Department) : Department :=
  match dept.inProcess with
  | some _ => dept
  | none =>
    match dept.queue with
    | [] => dept
    | nextOrder :: rest =>
      let firstOperation := dept.operations.getD 0 default
      let processingTime := jsMul (jsMul firstOperation.duration 60) 1000
      { dept with
        queue := rest
        inProcess := some { nextOrder with
          status := OrderStatus.processing
          processingTime := some processingTime
          processingTimeRemaining := some processingTime
          currentOperationIndex := some 0
          operationProgress := some [
            { operationId := firstOperation.id
              operationName := firstOperation.name
              startTime := now
              duration := firstOperation.duration
              completed := false }]
          timestamps := nextOrder.timestamps ++ [{ deptId := dept.id, start := now }] } }

/-- Recompute utilization and status (lines 225-237). -/
def updateUtilization (dept : Department) : Department :=
  let queueLoad := dept.queue.length
  let processingLoad := if dept.inProcess.isSome then 1 else 0
  let util : ℚ := jsMin 100 (jsMul (jsOfNat (queueLoad + processingLoad)) 25)
  { dept with
    utilization := util
    status := if util > 85 then DeptStatus.overloaded
      else if util > 50 then DeptStatus.busy
      else DeptStatus.available }

/-- The whole per-department body of the forEach loop: the processed
department is appended to updatedDepartments only when no entry with
its id is already present — otherwise the iteration's work on this
department is discarded, exactly as in the source. -/
def processOneDept (now : ℚ) (departments : List Department) (acc : PDUAcc)
    (dept : Department) : PDUAcc :=
  let pa := advanceInProcess now departments dept acc
  let updatedDept := updateUtilization (startNextOrder now pa.1)
  if (pa.2.updatedDepartments.find? (fun d => d.id = dept.id)).isSome then pa.2
  else { pa.2 with updatedDepartments := pa.2.updatedDepartments ++ [updatedDept] }

/-- processDepartmentUpdates (useGameSimulation.ts lines 84-245). -/
def processDepartmentUpdates (now : ℚ) (rnds : List ℚ) (departments : List Department) :
    PDUAcc :=
  departments.foldl (processOneDept now departments) ⟨[], [], [], rnds⟩

/-! ### Order generation and the tick loop (useGameSimulation.ts) -/

/-- JS String(n).padStart(3, '0'). -/
def padStart3 (n : Nat) : String :=
  if n < 10 then "00" ++ toString n
  else if n < 100 then "0" ++ toString n
  else toString n

/-- generateNewOrders (the basic hook, lines 24-61): draw once against
the tier probability and, on success, synthesize one order with a
random route and a due date 90-240 minutes out. -/
def generateNewOrders (now : ℚ) (rng : Nat) (gs : GameState) : List Order × Nat :=
  let generationChance : ℚ :=
    if gs.session.settings.orderGenerationRate = "low" then mkRat 2 1000
    else if gs.session.settings.orderGenerationRate = "medium" then mkRat 3 1000
    else if gs.session.settings.orderGenerationRate = "high" then mkRat 5 1000
    else 0
  let p := rngNext rng
  if p.1 < generationChance then
    let r := generateRandomRoute p.2 gs.session.settings.complexityLevel
    let orderId := "ORD-" ++ padStart3 (gs.totalOrdersGenerated + 1)
    let d := rngBetween r.2 90 240
    ([{ id := orderId, dueDate := jsAdd now (jsMul (jsMul d.1 60) 1000), route := r.1,
        currentStepIndex := -1, status := OrderStatus.queued, timestamps := [],
        reworkCount := 0, createdAt := now, slaStatus := some SlaStatus.onTrack }], d.2)
  else ([], p.2)

/-- JS gameEvents.slice(-50): keep the most recent 50 events. -/
def sliceLast50 {α : Type} (l : List α) : List α := l.drop (l.length - 50)

/-- The engine driver's mutable footprint: the GameState plus the
threaded PRNG seed held in rngRef. -/
structure EngineState where
  gs : GameState
  rng : Nat
deriving DecidableEq, Repr

/-- simulationStep (useGameSimulation.ts lines 248-312): the discrete
tick.  now is Date.now() at the tick, deltaTime the elapsed real
interval, rnds the ambient Math.random() draws used in event ids. -/
def simulationStep (now deltaTime : ℚ) (rnds : List ℚ) (st : EngineState) : EngineState :=
  let prevState := st.gs
  if prevState.session.elapsedTime ≥ prevState.session.duration then
    { st with gs := { prevState with
        session := { prevState.session with
          status := SessionStatus.completed
          endTime := some now } } }
  else
    let newElapsedTime := jsAdd prevState.session.elapsedTime deltaTime
    let no := generateNewOrders now st.rng prevState
    let updatedPendingOrders := prevState.pendingOrders.map (updateSLAStatus now)
    let pdu := processDepartmentUpdates now rnds prevState.departments
    let totalCompleted := prevState.completedOrders.length + pdu.completedOrders.length
    let allCompleted := prevState.completedOrders ++ pdu.completedOrders
    let onTimeCompleted :=
      (allCompleted.filter (fun o => decide (o.status = OrderStatus.completedOnTime))).length
    let onTimeDeliveryRate : ℚ :=
      if totalCompleted > 0 then
        jsMul (jsDiv (jsOfNat onTimeCompleted) (jsOfNat totalCompleted)) 100
      else 0
    let averageLeadTime : ℚ :=
      if totalCompleted > 0 then
        jsDiv (allCompleted.foldl (fun sum o => jsAdd sum (o.actualLeadTime.getD 0)) 0)
          (jsOfNat totalCompleted)
      else 0
    let utilizationRates := pdu.updatedDepartments.map (fun d => (d.id, d.utilization))
    let bottleneckDepartment := pdu.updatedDepartments.foldl
      (fun mx dept =>
        let cur : ℚ :=
          ((pdu.updatedDepartments.find? (fun d => d.id = mx)).map
            (fun d => d.utilization)).getD 0
        if dept.utilization > cur then dept.id else mx)
      (1 : ℤ)
    { gs := { prevState with
        session := { prevState.session with elapsedTime := newElapsedTime },
        departments := pdu.updatedDepartments,
        pendingOrders := updatedPendingOrders ++ no.1,
        completedOrders := prevState.completedOrders ++ pdu.completedOrders,
        totalOrdersGenerated := prevState.totalOrdersGenerated + no.1.length,
        gameEvents := sliceLast50 (prevState.gameEvents ++ pdu.events),
        performance := {
          onTimeDeliveryRate := onTimeDeliveryRate
          averageLeadTime := averageLeadTime
          totalThroughput := totalCompleted
          utilizationRates := utilizationRates
          bottleneckDepartment := some bottleneckDepartment } },
      rng := no.2 }

/-! ### C7: the per-tick decrement ignores the speed multiplier -/

def c7Settings : GameSettings :=
  { sessionDuration := 30, orderGenerationRate := "low", complexityLevel := "beginner",
    randomSeed := some "test", gameSpeed := 2, enableEvents := true }

def c7Order : Order :=
  { id := "ORD-100", dueDate := 10000000, route := [1], currentStepIndex := 0,
    status := .processing, timestamps := [{ deptId := 1, start := 0 }], reworkCount := 0,
    createdAt := 0, processingTime := some 480000, processingTimeRemaining := some 5000,
    slaStatus := some .onTrack, currentDepartment := some 1,
    currentOperationIndex := some 0,
    operationProgress := some [
      { operationId := "cut-1", operationName := "Material Cutting", startTime := 0,
        duration := 8, completed := false }] }

def c7Dept : Department :=
  { id := 1, name := "Cutting and Prep", queue := [], inProcess := some c7Order,
    utilization := 25, avgCycleTime := 15, totalProcessed := 0, capacity := 100,
    efficiency := 1, equipmentCondition := 1, status := .busy,
    operations := [
      { id := "cut-1", name := "Material Cutting", duration := 8,
        description := "Cut raw materials to specifications" }],
    standardProcessingTime := 15 }

def c7State : EngineState :=
  { gs := {
      session := {
        id := "s", duration := 1800000, status := .running, settings := c7Settings,
        elapsedTime := 0 }
      departments := [c7Dept]
      pendingOrders := []
      completedOrders := []
      rejectedOrders := []
      totalOrdersGenerated := 1
      gameEvents := []
      performance := ⟨0, 0, 0, [], none⟩
      decisions := [] },
    rng := 0 }

/-- C7 counterexample: in a session whose gameSpeed setting is 2, one
tick reduces an in-process order's processingTimeRemaining from 5000 ms
to 4000 ms — by the fixed 1000 ms, not by the speed-scaled 2000 ms the
claim asserts. -/
theorem c7_counterexample :
    ((simulationStep 1000 1000 [] c7State).gs.departments.head?.bind
        (fun d => d.inProcess)).map (fun o => o.processingTimeRemaining) =
      some (some 4000) ∧
    ¬ (((simulationStep 1000 1000 [] c7State).gs.departments.head?.bind
        (fun d => d.inProcess)).map (fun o => o.processingTimeRemaining) =
      some (some (5000 - 2 * 1000))) := by
  constructor <;> decide

/-- C7 as amended: on every tick a department holding an in-process
order whose remaining time does not yet run out decrements that time by
exactly 1000 ms (one simulated second), irrespective of the gameSpeed
setting, which no tick code reads. -/
theorem c7_decrement_always_1000 (now : ℚ) (departments : List Department)
    (acc : PDUAcc) (dept : Department) (o : Order) (r : ℚ)
    (hip : dept.inProcess = some o)
    (hr : o.processingTimeRemaining = some r)
    (hpos : ¬ jsSub r 1000 ≤ 0)
    (hacc : (acc.updatedDepartments.find? (fun d => d.id = dept.id)).isSome = false) :
    (processOneDept now departments acc dept).updatedDepartments.getLast? =
      some (updateUtilization { dept with
        inProcess := some { o with processingTimeRemaining := some (jsSub r 1000) } }) := by
  unfold processOneDept advanceInProcess
  rw [hip]
  simp only [hr, Option.getD_some, if_neg hpos]
  have hs : startNextOrder now
      { dept with inProcess := some { o with processingTimeRemaining := some (jsSub r 1000) } } =
      { dept with inProcess := some { o with processingTimeRemaining := some (jsSub r 1000) } } := by
    unfold startNextOrder
    rfl
  simp only [hs, hacc, Bool.false_eq_true, if_false, List.getLast?_concat]

/-- Witness for C7's amended theorem at the concrete C7 department. -/
theorem c7_decrement_witness :
    (processOneDept 1000 [c7Dept] ⟨[], [], [], []⟩ c7Dept).updatedDepartments.getLast? =
      some (updateUtilization { c7Dept with
        inProcess := some { c7Order with processingTimeRemaining := some (jsSub 5000 1000) } }) :=
  c7_decrement_always_1000 1000 [c7Dept] ⟨[], [], [], []⟩ c7Dept c7Order 5000
    rfl rfl (by rw [jsSub_eq]; norm_num) rfl

/-! ### Decision log and engine commands (the extended hook: R13
undo/redo, R04-R05 scheduling and rebalancing, R06 route optimization) -/

/-- The snapshot releaseOrder captures: the previous departments and
pendingOrders. -/
def snapshotDP (gs : GameState) : PartialState :=
  { departments := some gs.departments, pendingOrders := some gs.pendingOrders }

/-- The whole-state snapshot scheduleOrder, rebalanceWorkload and
optimizeOrderRoute capture (a shallow copy of the stale gameState; the
copy's decisions field is not modelled, see PartialState). -/
def snapshotAll (gs : GameState) : PartialState :=
  { session := some gs.session, departments := some gs.departments,
    pendingOrders := some gs.pendingOrders, completedOrders := some gs.completedOrders,
    rejectedOrders := some gs.rejectedOrders,
    totalOrdersGenerated := some gs.totalOrdersGenerated,
    gameEvents := some gs.gameEvents, performance := some gs.performance }

/-- Decision id strings: decision-(Date.now())-(Math.random()). -/
def mkDecisionId (now r : ℚ) : String := "decision-" ++ toString now ++ "-" ++ toString r

/-- recordDecision (extended hook lines 450-472): append a decision
after the cursor (slicing off any undone tail) and advance the cursor.
The newState field is never populated. -/
def recordDecision (now rid : ℚ) (idx : ℤ) (dtype desc : String)
    (orderId : Option String) (prevSt : Option PartialState) (gs : GameState) :
    GameState × ℤ :=
  let decision : Decision :=
    { id := mkDecisionId now rid, timestamp := now, type := dtype, description := desc,
      orderId := orderId, previousState := prevSt, canUndo := true }
  ({ gs with decisions := gs.decisions.take (idx + 1).toNat ++ [decision] }, idx + 1)

/-- releaseOrder (extended hook lines 475-518): move the order from
pendingOrders to the queue of every department whose id is route[0]
(a map in the source) and record an order-release decision; a no-op
when the order is not found or its route is empty. -/
def releaseOrderCmd (now rid : ℚ) (orderId : String) (st : GameState × ℤ) :
    GameState × ℤ :=
  let gs := st.1
  let idx := st.2
  match gs.pendingOrders.findIdx? (fun o => decide (o.id = orderId)) with
  | none => (gs, idx)
  | some i =>
    match gs.pendingOrders.get? i with
    | none => (gs, idx)
    | some order =>
      if order.route = [] then (gs, idx)
      else
        let firstDeptId := order.route.headD 0
        let updatedOrder := { order with
          currentStepIndex := 0
          currentDepartment := some firstDeptId
          status := OrderStatus.queued }
        let updatedDepartments := gs.departments.map (fun d =>
          if d.id = firstDeptId then { d with queue := d.queue ++ [updatedOrder] } else d)
        let updatedPendingOrders := gs.pendingOrders.eraseIdx i
        let newGs := { gs with
          departments := updatedDepartments
          pendingOrders := updatedPendingOrders }
        recordDecision now rid idx "order-release"
          ("Released order " ++ orderId ++ " to " ++
            (((gs.departments.find? (fun d => d.id = firstDeptId)).map
              (fun d => d.name)).getD "undefined"))
          (some orderId) (some (snapshotDP gs)) newGs

/-- scheduleOrder (extended hook lines 639-682): move a pending order
into the queue of the department with the given id — with no check
that such a department exists — and record a decision even when the
order is not found. -/
def scheduleOrderCmd (now rid : ℚ) (orderId : String) (departmentId : ℤ)
    (scheduledTime : ℚ) (st : GameState × ℤ) : GameState × ℤ :=
  let gs := st.1
  let idx := st.2
  let gs1 :=
    match gs.pendingOrders.findIdx? (fun o => decide (o.id = orderId)) with
    | none => gs
    | some i =>
      match gs.pendingOrders.get? i with
      | none => gs
      | some order =>
        let updatedOrder := { order with
          currentStepIndex := 0
          currentDepartment := some departmentId
          status := OrderStatus.queued
          scheduledStartTime := some scheduledTime }
        let updatedPendingOrders := gs.pendingOrders.eraseIdx i
        let updatedDepartments := gs.departments.map (fun d =>
          if d.id = departmentId then { d with queue := d.queue ++ [updatedOrder] } else d)
        { gs with
          pendingOrders := updatedPendingOrders
          departments := updatedDepartments }
  recordDecision now rid idx "order-release"
    ("Scheduled order " ++ orderId ++ " to Department " ++ toString departmentId ++
      " at " ++ toString scheduledTime)
    (some orderId) (some (snapshotAll gs)) gs1

/-- rebalanceWorkload (extended hook lines 685-732): remove the named
orders from the source departments' queues and deal the removed orders
round-robin into the target departments; a decision is always
recorded. -/
def rebalanceWorkloadCmd (now rid : ℚ) (sourceIds targetIds : List ℤ)
    (ordersToMove : List String) (st : GameState × ℤ) : GameState × ℤ :=
  let gs := st.1
  let idx := st.2
  let updatedDepartments := gs.departments.map (fun dept =>
    if sourceIds.contains dept.id then
      { dept with queue := dept.queue.filter (fun o => ! ordersToMove.contains o.id) }
    else dept)
  let movedOrders := (gs.departments.filter (fun d => sourceIds.contains d.id)).flatMap
    (fun dept => dept.queue.filter (fun o => ordersToMove.contains o.id))
  let finalDepartments := updatedDepartments.map (fun dept =>
    if targetIds.contains dept.id then
      let targetIndex := targetIds.findIdx (fun x => x = dept.id)
      let ordersForThisDept := (movedOrders.enum.filter
        (fun p => decide (p.1 % targetIds.length = targetIndex))).map (fun p => p.2)
      { dept with queue := dept.queue ++ ordersForThisDept }
    else dept)
  let gs1 := { gs with departments := finalDepartments }
  recordDecision now rid idx "order-release"
    ("Rebalanced workload: moved " ++ toString ordersToMove.length ++
      " orders from departments " ++ toString sourceIds ++ " to " ++ toString targetIds)
    none (some (snapshotAll gs)) gs1

/-- optimizeOrderRoute (extended hook lines 581-636): replace the
order's route wherever the order currently lives (pending, a queue, or
in process); always records a decision with a whole-state snapshot. -/
def optimizeOrderRouteCmd (now rid : ℚ) (orderId : String) (newRoute : List ℤ)
    (st : GameState × ℤ) : GameState × ℤ :=
  let gs := st.1
  let idx := st.2
  let gs1 :=
    match gs.pendingOrders.findIdx? (fun o => decide (o.id = orderId)) with
    | some i =>
      match gs.pendingOrders.get? i with
      | none => gs
      | some o =>
        { gs with pendingOrders := gs.pendingOrders.set i { o with route := newRoute } }
    | none =>
      let updatedDepartments := gs.departments.map (fun dept =>
        match dept.queue.findIdx? (fun o => decide (o.id = orderId)) with
        | some qi =>
          match dept.queue.get? qi with
          | none => dept
          | some o => { dept with queue := dept.queue.set qi { o with route := newRoute } }
        | none =>
          match dept.inProcess with
          | some ip =>
            if ip.id = orderId then { dept with inProcess := some { ip with route := newRoute } }
            else dept
          | none => dept)
      { gs with departments := updatedDepartments }
  recordDecision now rid idx "order-release"
    ("Optimized route for order " ++ orderId) (some orderId) (some (snapshotAll gs)) gs1

/-- The object-spread merge applied by undo and redo: snapshot fields
override, everything else (including the decisions list) is kept. -/
def applyPartial (ps : PartialState) (gs : GameState) : GameState :=
  { session := ps.session.getD gs.session,
    departments := ps.departments.getD gs.departments,
    pendingOrders := ps.pendingOrders.getD gs.pendingOrders,
    completedOrders := ps.completedOrders.getD gs.completedOrders,
    rejectedOrders := ps.rejectedOrders.getD gs.rejectedOrders,
    totalOrdersGenerated := ps.totalOrdersGenerated.getD gs.totalOrdersGenerated,
    gameEvents := ps.gameEvents.getD gs.gameEvents,
    performance := ps.performance.getD gs.performance,
    decisions := gs.decisions }

/-- undoLastDecision (extended hook lines 546-557). -/
def undoLastDecision (st : GameState × ℤ) : GameState × ℤ :=
  let gs := st.1
  let idx := st.2
  if idx ≥ 0 ∧ gs.decisions.length > 0 then
    match gs.decisions.get? idx.toNat with
    | some decision =>
      if decision.canUndo then
        match decision.previousState with
        | some ps => (applyPartial ps gs, idx - 1)
        | none => (gs, idx)
      else (gs, idx)
    | none => (gs, idx)
  else (gs, idx)

/-- redoLastDecision (extended hook lines 559-570): only acts when the
next decision carries a populated newState — which no command ever
sets. -/
def redoLastDecision (st : GameState × ℤ) : GameState × ℤ :=
  let gs := st.1
  let idx := st.2
  if idx < (gs.decisions.length : ℤ) - 1 then
    match gs.decisions.get? (idx + 1).toNat with
    | some nextDecision =>
      match nextDecision.newState with
      | some ns => (applyPartial ns gs, idx + 1)
      | none => (gs, idx)
    | none => (gs, idx)
  else (gs, idx)

/-- clearDecisionHistory (extended hook lines 572-578). -/
def clearDecisionHistory (st : GameState × ℤ) : GameState × ℤ :=
  ({ st.1 with decisions := [] }, -1)

/-! ### C3, C4: fail-soft behaviour of the commands and release
semantics -/

def c4Order : Order :=
  { id := "ORD-A", dueDate := mkRat 7200000 1, route := [1], currentStepIndex := -1,
    status := .queued, timestamps := [], reworkCount := 0, createdAt := 0,
    slaStatus := some .onTrack }

def c4Dept : Department :=
  { id := 1, name := "Cutting and Prep", queue := [], inProcess := none,
    utilization := 0, avgCycleTime := 15, totalProcessed := 0, capacity := 100,
    efficiency := 1, equipmentCondition := 1, status := .available,
    operations := [
      { id := "cut-1", name := "Material Cutting", duration := 8,
        description := "Cut raw materials to specifications" }],
    standardProcessingTime := 15 }

def c4State : GameState :=
  { session := {
      id := "s", duration := mkRat 1800000 1, status := .running, settings := c7Settings,
      elapsedTime := 0 }
    departments := [c4Dept]
    pendingOrders := [c4Order]
    completedOrders := []
    rejectedOrders := []
    totalOrdersGenerated := 1
    gameEvents := []
    performance := ⟨0, 0, 0, [], none⟩
    decisions := [] }

/-- C3 counterexample: scheduling the pending order into department 99,
which matches no department, is not a no-op — the order is removed from
pendingOrders without being enqueued anywhere (the departments are
untouched), so the order is lost and the state changes. -/
theorem c3_counterexample :
    (scheduleOrderCmd 0 0 "ORD-A" 99 0 (c4State, -1)).1 ≠ c4State ∧
    (scheduleOrderCmd 0 0 "ORD-A" 99 0 (c4State, -1)).1.pendingOrders = [] ∧
    (scheduleOrderCmd 0 0 "ORD-A" 99 0 (c4State, -1)).1.departments =
      c4State.departments := by
  have h2 : (scheduleOrderCmd 0 0 "ORD-A" 99 0 (c4State, -1)).1.pendingOrders = [] := by
    decide
  have h3 : (scheduleOrderCmd 0 0 "ORD-A" 99 0 (c4State, -1)).1.departments =
      c4State.departments := by decide
  refine ⟨?_, h2, h3⟩
  intro h
  rw [h] at h2
  exact absurd h2 (by decide)

lemma map_if_id_of_no_match {l : List Department} {did : ℤ}
    (h : ∀ d ∈ l, d.id ≠ did) (f : Department → Department) :
    l.map (fun d => if d.id = did then f d else d) = l := by
  induction l with
  | nil => rfl
  | cons x xs ih =>
    simp only [List.map_cons, if_neg (h x (List.mem_cons_self x xs)), List.cons.injEq,
      true_and]
    exact ih (fun d hd => h d (List.mem_cons_of_mem x hd))

/-- C3 as amended: releasing an order that is not pending or whose
route is empty is a true no-op; but scheduling a pending order into an
unknown department id is not — it removes the order from pendingOrders
while leaving every department queue unchanged (the order is lost) and
appends a decision; and rebalancing with empty source and target lists
leaves departments and orders unchanged but still appends a decision.
None of these paths throws (every command is a total function). -/
theorem c3_failsoft_amended :
    (∀ (now rid : ℚ) (orderId : String) (gs : GameState) (idx : ℤ),
      gs.pendingOrders.findIdx? (fun x => decide (x.id = orderId)) = none →
      releaseOrderCmd now rid orderId (gs, idx) = (gs, idx)) ∧
    (∀ (now rid : ℚ) (orderId : String) (gs : GameState) (idx : ℤ) (i : Nat) (o : Order),
      gs.pendingOrders.findIdx? (fun x => decide (x.id = orderId)) = some i →
      gs.pendingOrders.get? i = some o → o.route = [] →
      releaseOrderCmd now rid orderId (gs, idx) = (gs, idx)) ∧
    (∀ (now rid : ℚ) (orderId : String) (departmentId : ℤ) (t : ℚ)
        (gs : GameState) (idx : ℤ) (i : Nat) (o : Order),
      gs.pendingOrders.findIdx? (fun x => decide (x.id = orderId)) = some i →
      gs.pendingOrders.get? i = some o →
      (∀ d ∈ gs.departments, d.id ≠ departmentId) →
      (scheduleOrderCmd now rid orderId departmentId t (gs, idx)).1.pendingOrders =
          gs.pendingOrders.eraseIdx i ∧
      (scheduleOrderCmd now rid orderId departmentId t (gs, idx)).1.departments =
          gs.departments ∧
      (scheduleOrderCmd now rid orderId departmentId t (gs, idx)).1.decisions.length =
          (gs.decisions.take (idx + 1).toNat).length + 1 ∧
      (scheduleOrderCmd now rid orderId departmentId t (gs, idx)).2 = idx + 1) ∧
    (∀ (now rid : ℚ) (gs : GameState) (idx : ℤ),
      (rebalanceWorkloadCmd now rid [] [] [] (gs, idx)).1.departments = gs.departments ∧
      (rebalanceWorkloadCmd now rid [] [] [] (gs, idx)).1.pendingOrders = gs.pendingOrders ∧
      (rebalanceWorkloadCmd now rid [] [] [] (gs, idx)).1.decisions.length =
          (gs.decisions.take (idx + 1).toNat).length + 1) := by
  refine ⟨?_, ?_, ?_, ?_⟩
  · intro now rid orderId gs idx hfind
    simp only [releaseOrderCmd, hfind]
  · intro now rid orderId gs idx i o hfind hget hroute
    simp only [releaseOrderCmd, hfind, hget, if_pos hroute]
  · intro now rid orderId departmentId t gs idx i o hfind hget hdept
    simp only [List.get?_eq_getElem?] at hget
    simp [scheduleOrderCmd, recordDecision, hfind, hget, map_if_id_of_no_match hdept]
  · intro now rid gs idx
    simp [rebalanceWorkloadCmd, recordDecision]

/-- Witness for C3's amended theorem: releasing an order id that is not
pending leaves the concrete state untouched, and the empty rebalance
only appends a decision. -/
theorem c3_failsoft_witness :
    releaseOrderCmd 0 0 "ORD-MISSING" (c4State, -1) = (c4State, -1) ∧
    (rebalanceWorkloadCmd 0 0 [] [] [] (c4State, -1)).1.departments =
      c4State.departments :=
  ⟨c3_failsoft_amended.1 0 0 "ORD-MISSING" c4State (-1) (by decide),
    (c3_failsoft_amended.2.2.2 0 0 c4State (-1)).1⟩

def c4Released : GameState := (releaseOrderCmd 0 0 "ORD-A" (c4State, -1)).1

def c4RelTs : Option (List Stamp) :=
  (c4Released.departments.head?.bind (fun d => d.queue.head?)).map (fun o => o.timestamps)

/-- C4 counterexample: after releasing the pending order with route [1]
into department 1, the order sits in that department's queue with its
timestamps still empty — no ⟨deptId, start⟩ span has been appended, so
release does not open the first timestamp span as claimed. -/
theorem c4_counterexample :
    c4RelTs = some [] ∧
    ¬ ∃ q : ℚ, c4RelTs = some [{ deptId := 1, start := q, endT := none }] := by
  have h : c4RelTs = some [] := by decide
  refine ⟨h, ?_⟩
  rintro ⟨q, hq⟩
  rw [h] at hq
  simp at hq

/-- The updated order releaseOrder builds: step index 0, first route
department, status queued — and, notably, the timestamps untouched. -/
def releasedOrder (o : Order) : Order :=
  { o with
    currentStepIndex := 0
    currentDepartment := some (o.route.headD 0)
    status := OrderStatus.queued }

/-- C4 as amended: release removes the order from pendingOrders, sets
currentStepIndex to 0 and appends it (status queued) to the queue of
the departments whose id is the first route entry — but it does not
open a timestamp span: the released order keeps its timestamps
unchanged, and the first ⟨deptId, start⟩ span is appended only when the
department dequeues the order into its inProcess slot. -/
theorem c4_release_semantics (now rid : ℚ) (gs : GameState) (idx : ℤ)
    (orderId : String) (i : Nat) (o : Order)
    (hfind : gs.pendingOrders.findIdx? (fun x => decide (x.id = orderId)) = some i)
    (hget : gs.pendingOrders.get? i = some o)
    (hroute : ¬ o.route = []) :
    (releaseOrderCmd now rid orderId (gs, idx)).1.pendingOrders =
        gs.pendingOrders.eraseIdx i ∧
    (releaseOrderCmd now rid orderId (gs, idx)).1.departments =
        gs.departments.map (fun d =>
          if d.id = o.route.headD 0 then
            { d with queue := d.queue ++ [releasedOrder o] }
          else d) ∧
    (releasedOrder o).timestamps = o.timestamps ∧
    (∀ (dept : Department) (o2 : Order) (q : List Order),
      dept.inProcess = none → dept.queue = o2 :: q →
      ((startNextOrder now dept).inProcess.map (fun ip => ip.timestamps)) =
        some (o2.timestamps ++ [{ deptId := dept.id, start := now }])) := by
  have hget2 : gs.pendingOrders[i]? = some o := by
    rw [← List.get?_eq_getElem?]
    exact hget
  refine ⟨?_, ?_, rfl, ?_⟩
  · simp [releaseOrderCmd, recordDecision, hfind, hget, hget2, if_neg hroute]
  · simp [releaseOrderCmd, recordDecision, hfind, hget, hget2, if_neg hroute, releasedOrder]
  · intro dept o2 q h1 h2
    simp [startNextOrder, h1, h2]

/-- Witness for C4's amended theorem at the concrete release state. -/
theorem c4_release_witness :
    (releaseOrderCmd 0 0 "ORD-A" (c4State, -1)).1.pendingOrders =
      c4State.pendingOrders.eraseIdx 0 ∧
    (releasedOrder c4Order).timestamps = c4Order.timestamps :=
  ⟨(c4_release_semantics 0 0 c4State (-1) "ORD-A" 0 c4Order (by decide) (by decide)
      (by decide)).1,
    (c4_release_semantics 0 0 c4State (-1) "ORD-A" 0 c4Order (by decide) (by decide)
      (by decide)).2.2.1⟩

/-! ### C8: redo is vacuous -/

/-- Decisions never carry a forward (redo) snapshot. -/
def NoRedoSnapshots (gs : GameState) : Prop := ∀ d ∈ gs.decisions, d.newState = none

lemma recordDecision_noRedo {now rid : ℚ} {idx : ℤ} {dtype desc : String}
    {oid : Option String} {prevSt : Option PartialState} {gs : GameState}
    (h : NoRedoSnapshots gs) :
    NoRedoSnapshots (recordDecision now rid idx dtype desc oid prevSt gs).1 := by
  intro d hd
  simp only [recordDecision] at hd
  rcases List.mem_append.mp hd with h1 | h2
  · exact h d (List.take_subset _ _ h1)
  · rw [List.mem_singleton.mp h2]

/-- C8: no engine command ever populates a decision's newState field —
recordDecision never sets it, and every command funnels its decision
through recordDecision — so on any state whose history has no forward
snapshots, redo returns the state and cursor entirely unchanged. -/
theorem c8_redo_vacuous :
    (∀ (now rid : ℚ) (idx : ℤ) (dtype desc : String) (oid : Option String)
        (prevSt : Option PartialState) (gs : GameState), NoRedoSnapshots gs →
      NoRedoSnapshots (recordDecision now rid idx dtype desc oid prevSt gs).1) ∧
    (∀ (now rid : ℚ) (oid : String) (st : GameState × ℤ), NoRedoSnapshots st.1 →
      NoRedoSnapshots (releaseOrderCmd now rid oid st).1) ∧
    (∀ (now rid : ℚ) (oid : String) (did : ℤ) (t : ℚ) (st : GameState × ℤ),
      NoRedoSnapshots st.1 →
      NoRedoSnapshots (scheduleOrderCmd now rid oid did t st).1) ∧
    (∀ (now rid : ℚ) (si ti : List ℤ) (om : List String) (st : GameState × ℤ),
      NoRedoSnapshots st.1 →
      NoRedoSnapshots (rebalanceWorkloadCmd now rid si ti om st).1) ∧
    (∀ (now rid : ℚ) (oid : String) (nr : List ℤ) (st : GameState × ℤ),
      NoRedoSnapshots st.1 →
      NoRedoSnapshots (optimizeOrderRouteCmd now rid oid nr st).1) ∧
    (∀ st : GameState × ℤ, NoRedoSnapshots st.1 → redoLastDecision st = st) := by
  refine ⟨fun _ _ _ _ _ _ _ _ h => recordDecision_noRedo h, ?_, ?_, ?_, ?_, ?_⟩
  · intro now rid oid st h
    cases hf : st.1.pendingOrders.findIdx? (fun o => decide (o.id = oid)) with
    | none => simp only [releaseOrderCmd, hf]; exact h
    | some i =>
      cases hg : st.1.pendingOrders.get? i with
      | none => simp only [releaseOrderCmd, hf, hg]; exact h
      | some order =>
        by_cases hr : order.route = []
        · simp only [releaseOrderCmd, hf, hg, if_pos hr]; exact h
        · simp only [releaseOrderCmd, hf, hg, if_neg hr]; exact recordDecision_noRedo h
  · intro now rid oid did t st h
    cases hf : st.1.pendingOrders.findIdx? (fun o => decide (o.id = oid)) with
    | none => simp only [scheduleOrderCmd, hf]; exact recordDecision_noRedo h
    | some i =>
      cases hg : st.1.pendingOrders.get? i with
      | none => simp only [scheduleOrderCmd, hf, hg]; exact recordDecision_noRedo h
      | some order =>
        simp only [scheduleOrderCmd, hf, hg]; exact recordDecision_noRedo h
  · intro now rid si ti om st h
    simp only [rebalanceWorkloadCmd]
    exact recordDecision_noRedo h
  · intro now rid oid nr st h
    cases hf : st.1.pendingOrders.findIdx? (fun o => decide (o.id = oid)) with
    | none => simp only [optimizeOrderRouteCmd, hf]; exact recordDecision_noRedo h
    | some i =>
      cases hg : st.1.pendingOrders.get? i with
      | none => simp only [optimizeOrderRouteCmd, hf, hg]; exact recordDecision_noRedo h
      | some order =>
        simp only [optimizeOrderRouteCmd, hf, hg]; exact recordDecision_noRedo h
  · intro st h
    simp only [redoLastDecision]
    by_cases hc : st.2 < (st.1.decisions.length : ℤ) - 1
    · simp only [if_pos hc]
      cases hg : st.1.decisions.get? (st.2 + 1).toNat with
      | none => rfl
      | some d =>
        have hn : d.newState = none := h d (List.get?_mem hg)
        simp only [hn]
    · simp only [if_neg hc]

/-- Witness for C8 at a concrete state with an empty decision
history. -/
theorem c8_redo_witness : redoLastDecision (c4State, -1) = (c4State, -1) :=
  c8_redo_vacuous.2.2.2.2.2 (c4State, -1)
    (fun d hd => absurd hd (by simp [c4State]))

/-! ### C9: SLA staleness after release -/

def c9Op : DeptOperation :=
  { id := "cut-1", name := "Cutting", duration := mkRat 1 60, description := "Cut" }

def c9Prog : OperationProgress :=
  { operationId := "cut-1"
    operationName := "Cutting"
    startTime := 0
    duration := mkRat 1 60
    completed := false }

def c9Order : Order :=
  { id := "ORD-C9", dueDate := 500, route := [1], currentStepIndex := 0,
    status := .processing, timestamps := [{ deptId := 1, start := 0 }], reworkCount := 0,
    createdAt := 0, processingTime := some (mkRat 1000 1),
    processingTimeRemaining := some (mkRat 1000 1), slaStatus := some .onTrack,
    currentDepartment := some 1, currentOperationIndex := some 0,
    operationProgress := some [c9Prog] }

def c9Dept : Department :=
  { id := 1, name := "Cutting", queue := [], inProcess := some c9Order,
    utilization := 0, avgCycleTime := 0, totalProcessed := 0, capacity := 3,
    efficiency := 1, equipmentCondition := 1, status := .busy,
    operations := [c9Op], standardProcessingTime := 30 }

/-- C9: the tick reclassifies slaStatus only for orders still in
pendingOrders — the tick's pending list is exactly the map of
updateSLAStatus over the previous pending list plus the newly generated
orders; an order continuing in a department's inProcess slot keeps its
slaStatus, an order dequeued from a queue into the inProcess slot keeps
its slaStatus, and when an order finishes its last operation on the
last route step, its final status is decided solely by the stale
slaStatus: with slaStatus still on-track it is recorded
completed-on-time even though its dueDate already lies before now. -/
theorem c9_sla_staleness :
    (∀ (now deltaTime : ℚ) (rnds : List ℚ) (st : EngineState),
      ¬ st.gs.session.elapsedTime ≥ st.gs.session.duration →
      (simulationStep now deltaTime rnds st).gs.pendingOrders =
        st.gs.pendingOrders.map (updateSLAStatus now) ++
          (generateNewOrders now st.rng st.gs).1) ∧
    (∀ (now : ℚ) (deps : List Department) (dept : Department) (acc : PDUAcc)
       (order : Order),
      dept.inProcess = some order →
      ¬ jsSub (order.processingTimeRemaining.getD 0) 1000 ≤ 0 →
      ((advanceInProcess now deps dept acc).1.inProcess.map (fun o => o.slaStatus)) =
        some order.slaStatus) ∧
    (∀ (now : ℚ) (dept : Department) (o : Order) (q : List Order),
      dept.inProcess = none → dept.queue = o :: q →
      ((startNextOrder now dept).inProcess.map (fun o2 => o2.slaStatus)) =
        some o.slaStatus) ∧
    (∀ (now : ℚ) (deps : List Department) (dept : Department) (acc : PDUAcc)
       (order : Order),
      dept.inProcess = some order →
      jsSub (order.processingTimeRemaining.getD 0) 1000 ≤ 0 →
      ¬ order.currentOperationIndex.getD 0 + 1 < dept.operations.length →
      order.currentStepIndex + 1 ≥ (order.route.length : ℤ) →
      order.slaStatus = some SlaStatus.onTrack →
      order.dueDate < now →
      (advanceInProcess now deps dept acc).2.completedOrders.map (fun o => o.status) =
        acc.completedOrders.map (fun o => o.status) ++ [OrderStatus.completedOnTime]) := by
  refine ⟨?_, ?_, ?_, ?_⟩
  · intro now deltaTime rnds st h
    simp only [simulationStep, if_neg h]
  · intro now deps dept acc order hip h2
    simp only [advanceInProcess, hip, if_neg h2]
    rfl
  · intro now dept o q h1 h2
    simp [startNextOrder, h1, h2]
  · intro now deps dept acc order hip h2 h3 h4 hsla hdue
    cases hop : dept.operations[order.currentOperationIndex.getD 0]? with
    | none =>
      simp [advanceInProcess, hip, hop, h2, h3, h4, hsla]
    | some currentOperation =>
      cases hpr : order.operationProgress with
      | none =>
        simp [advanceInProcess, hip, hop, hpr, h2, h3, h4, hsla]
      | some ps =>
        simp [advanceInProcess, hip, hop, hpr, h2, h3, h4, hsla]

/-- Witness for C9: a concrete department completes an order whose due
date (500) already lies before now (1000) and still records it
completed on time, because the stale slaStatus reads on-track. -/
theorem c9_sla_witness :
    c9Order.dueDate < 1000 ∧
    (advanceInProcess 1000 [c9Dept] c9Dept ⟨[], [], [], []⟩).2.completedOrders.map
      (fun o => o.status) = [OrderStatus.completedOnTime] := by
  refine ⟨by decide, ?_⟩
  have h := c9_sla_staleness.2.2.2 1000 [c9Dept] c9Dept ⟨[], [], [], []⟩ c9Order
    (by decide) (by decide) (by decide) (by decide) (by decide) (by decide)
  simpa using h


/-! ### C10: capacity noninterference -/

/-- Erase a department's capacity field. -/
def stripCap (d : Department) : Department := { d with capacity := 0 }

/-- Erase capacities throughout a PDU accumulator. -/
def stripAcc (a : PDUAcc) : PDUAcc :=
  { a with updatedDepartments := a.updatedDepartments.map stripCap }

/-- Erase capacities throughout a GameState. -/
def stripGS (gs : GameState) : GameState :=
  { gs with departments := gs.departments.map stripCap }

/-- Erase capacities throughout an engine state. -/
def stripEngine (st : EngineState) : EngineState := { st with gs := stripGS st.gs }

@[simp] lemma stripCap_inProcess (d : Department) : (stripCap d).inProcess = d.inProcess := rfl

@[simp] lemma stripCap_operations (d : Department) : (stripCap d).operations = d.operations := rfl

@[simp] lemma stripCap_deptId (d : Department) : (stripCap d).id = d.id := rfl

@[simp] lemma stripCap_queue (d : Department) : (stripCap d).queue = d.queue := rfl

@[simp] lemma stripCap_totalProcessed (d : Department) :
    (stripCap d).totalProcessed = d.totalProcessed := rfl

@[simp] lemma stripCap_utilization (d : Department) :
    (stripCap d).utilization = d.utilization := rfl

@[simp] lemma stripAcc_updatedDepartments (a : PDUAcc) :
    (stripAcc a).updatedDepartments = a.updatedDepartments.map stripCap := rfl

@[simp] lemma stripAcc_completedOrders (a : PDUAcc) :
    (stripAcc a).completedOrders = a.completedOrders := rfl

@[simp] lemma stripAcc_events (a : PDUAcc) : (stripAcc a).events = a.events := rfl

@[simp] lemma stripAcc_rnds (a : PDUAcc) : (stripAcc a).rnds = a.rnds := rfl

@[simp] lemma calculateProcessingTime_strip (o : Order) (d : Department) :
    calculateProcessingTime o (stripCap d) = calculateProcessingTime o d := rfl

@[simp] lemma find?_stripCap (l : List Department) (nid : ℤ) :
    (l.map stripCap).find? (fun d => d.id = nid) =
      (l.find? (fun d => d.id = nid)).map stripCap := by
  induction l with
  | nil => rfl
  | cons d ds ih =>
    by_cases h : d.id = nid
    · rw [List.map_cons, List.find?_cons_of_pos _ (by simpa using h),
        List.find?_cons_of_pos _ (by simpa using h)]
      rfl
    · rw [List.map_cons, List.find?_cons_of_neg _ (by simpa using h),
        List.find?_cons_of_neg _ (by simpa using h), ih]

@[simp] lemma stripCap_pred_comp (nid : ℤ) :
    ((fun d => decide (d.id = nid)) ∘ stripCap) = (fun d : Department => decide (d.id = nid)) := by
  funext d
  rfl

lemma pushToFirst_strip (nid : ℤ) (o : Order) (l : List Department) :
    pushToFirst nid o (l.map stripCap) = (pushToFirst nid o l).map stripCap := by
  induction l with
  | nil => rfl
  | cons d ds ih =>
    simp only [List.map_cons, pushToFirst, stripCap_deptId]
    by_cases h : d.id = nid
    · simp only [if_pos h]
      rfl
    · simp only [if_neg h, List.map_cons, ih]

lemma advanceInProcess_strip (now : ℚ) (deps : List Department) (dept : Department)
    (acc : PDUAcc) :
    advanceInProcess now (deps.map stripCap) (stripCap dept) (stripAcc acc) =
      (stripCap (advanceInProcess now deps dept acc).1,
        stripAcc (advanceInProcess now deps dept acc).2) := by
  cases hip : dept.inProcess with
  | none => simp [advanceInProcess, stripCap, stripAcc, calculateProcessingTime, hip]
  | some order =>
    by_cases ht : jsSub (order.processingTimeRemaining.getD 0) 1000 ≤ 0
    · by_cases hni : order.currentOperationIndex.getD 0 + 1 < dept.operations.length
      · cases hop : dept.operations[order.currentOperationIndex.getD 0]? <;>
          cases hpr : order.operationProgress <;>
          simp [advanceInProcess, stripCap, stripAcc, calculateProcessingTime, hip, ht, hni, hop, hpr]
      · by_cases hns : order.currentStepIndex + 1 ≥ (order.route.length : ℤ)
        · cases hop : dept.operations[order.currentOperationIndex.getD 0]? <;>
            cases hpr : order.operationProgress <;>
            simp [advanceInProcess, stripCap, stripAcc, calculateProcessingTime, hip, ht, hni, hns, hop, hpr]
        · by_cases hz : (0 : ℤ) ≤ order.currentStepIndex + 1
          · cases hnid : order.route[(order.currentStepIndex + 1).toNat]? with
            | none =>
              cases hop : dept.operations[order.currentOperationIndex.getD 0]? <;>
                cases hpr : order.operationProgress <;>
                simp [advanceInProcess, stripCap, stripAcc, calculateProcessingTime, hip, ht, hni, hns, hz, hnid, hop, hpr]
            | some nid =>
              cases hfd : deps.find? (fun d => d.id = nid) with
              | none =>
                cases hop : dept.operations[order.currentOperationIndex.getD 0]? <;>
                  cases hpr : order.operationProgress <;>
                  simp [advanceInProcess, stripCap, stripAcc, calculateProcessingTime, hip, ht, hni, hns, hz, hnid, hop, hpr, hfd]
              | some nextDept =>
                by_cases hup : ∃ x ∈ acc.updatedDepartments, x.id = nid
                · cases hop : dept.operations[order.currentOperationIndex.getD 0]? <;>
                    cases hpr : order.operationProgress <;>
                    simp [advanceInProcess, stripCap, stripAcc, calculateProcessingTime, hip, ht, hni, hns, hz, hnid, hop, hpr, hfd,
                      hup, pushToFirst_strip]
                · cases hop : dept.operations[order.currentOperationIndex.getD 0]? <;>
                    cases hpr : order.operationProgress <;>
                    simp [advanceInProcess, stripCap, stripAcc, calculateProcessingTime, hip, ht, hni, hns, hz, hnid, hop, hpr, hfd,
                      hup, List.map_append]
          · cases hop : dept.operations[order.currentOperationIndex.getD 0]? <;>
              cases hpr : order.operationProgress <;>
              simp [advanceInProcess, stripCap, stripAcc, calculateProcessingTime, hip, ht, hni, hns, hz, hop, hpr]
    · simp [advanceInProcess, stripCap, stripAcc, calculateProcessingTime, hip, ht]

lemma startNextOrder_strip (now : ℚ) (d : Department) :
    startNextOrder now (stripCap d) = stripCap (startNextOrder now d) := by
  simp only [startNextOrder, stripCap_inProcess, stripCap_queue, stripCap_operations,
    stripCap_deptId]
  cases hip : d.inProcess with
  | some o => rfl
  | none =>
    cases hq : d.queue with
    | nil => rfl
    | cons o rest => rfl

lemma updateUtilization_strip (d : Department) :
    updateUtilization (stripCap d) = stripCap (updateUtilization d) := rfl

lemma processOneDept_strip (now : ℚ) (deps : List Department) (acc : PDUAcc)
    (dept : Department) :
    processOneDept now (deps.map stripCap) (stripAcc acc) (stripCap dept) =
      stripAcc (processOneDept now deps acc dept) := by
  simp only [processOneDept, advanceInProcess_strip, startNextOrder_strip,
    updateUtilization_strip, stripAcc_updatedDepartments, stripCap_deptId, find?_stripCap]
  cases hfd : (advanceInProcess now deps dept acc).2.updatedDepartments.find?
      (fun d => d.id = dept.id) with
  | none => simp [hfd, stripAcc, List.map_append]
  | some d2 => simp [hfd, stripAcc]

lemma foldl_processOneDept_strip (now : ℚ) (env : List Department) (l : List Department)
    (acc : PDUAcc) :
    l.foldl (fun a d => processOneDept now (env.map stripCap) a (stripCap d))
        (stripAcc acc) =
      stripAcc (l.foldl (processOneDept now env) acc) := by
  induction l generalizing acc with
  | nil => rfl
  | cons d ds ih =>
    simp only [List.foldl_cons, processOneDept_strip]
    exact ih _

lemma processDepartmentUpdates_strip (now : ℚ) (rnds : List ℚ) (deps : List Department) :
    processDepartmentUpdates now rnds (deps.map stripCap) =
      stripAcc (processDepartmentUpdates now rnds deps) := by
  simp only [processDepartmentUpdates]
  rw [List.foldl_map]
  have h0 : (⟨[], [], [], rnds⟩ : PDUAcc) = stripAcc ⟨[], [], [], rnds⟩ := rfl
  rw [h0, foldl_processOneDept_strip]
  rfl

@[simp] lemma stripEngine_gs (st : EngineState) : (stripEngine st).gs = stripGS st.gs := rfl

@[simp] lemma stripEngine_rng (st : EngineState) : (stripEngine st).rng = st.rng := rfl

@[simp] lemma stripGS_session (gs : GameState) : (stripGS gs).session = gs.session := rfl

@[simp] lemma stripGS_pendingOrders (gs : GameState) :
    (stripGS gs).pendingOrders = gs.pendingOrders := rfl

@[simp] lemma stripGS_completedOrders (gs : GameState) :
    (stripGS gs).completedOrders = gs.completedOrders := rfl

@[simp] lemma stripGS_totalOrdersGenerated (gs : GameState) :
    (stripGS gs).totalOrdersGenerated = gs.totalOrdersGenerated := rfl

@[simp] lemma stripGS_gameEvents (gs : GameState) :
    (stripGS gs).gameEvents = gs.gameEvents := rfl

@[simp] lemma stripGS_departments (gs : GameState) :
    (stripGS gs).departments = gs.departments.map stripCap := rfl

lemma generateNewOrders_strip (now : ℚ) (rng : Nat) (gs : GameState) :
    generateNewOrders now rng (stripGS gs) = generateNewOrders now rng gs := rfl

lemma utilRates_strip (l : List Department) :
    (l.map stripCap).map (fun d => (d.id, d.utilization)) =
      l.map (fun d => (d.id, d.utilization)) := by
  induction l with
  | nil => rfl
  | cons d ds ih =>
    simp only [List.map_cons, ih, stripCap_deptId, stripCap_utilization]

lemma find?_util_strip (l : List Department) (mx : ℤ) :
    ((l.map stripCap).find? (fun d => d.id = mx)).map (fun d => d.utilization) =
      (l.find? (fun d => d.id = mx)).map (fun d => d.utilization) := by
  rw [find?_stripCap]
  cases l.find? (fun d => d.id = mx) <;> rfl

lemma bottleneck_strip (l : List Department) :
    (l.map stripCap).foldl
        (fun mx dept =>
          if dept.utilization >
              (((l.map stripCap).find? (fun d => d.id = mx)).map
                (fun d => d.utilization)).getD 0 then dept.id else mx) 1 =
      l.foldl
        (fun mx dept =>
          if dept.utilization >
              ((l.find? (fun d => d.id = mx)).map (fun d => d.utilization)).getD 0
          then dept.id else mx) 1 := by
  rw [List.foldl_map]
  apply List.foldl_ext
  intro mx d hd
  simp only [find?_util_strip, stripCap_deptId, stripCap_utilization]

lemma simulationStep_strip (now deltaTime : ℚ) (rnds : List ℚ) (st : EngineState) :
    simulationStep now deltaTime rnds (stripEngine st) =
      stripEngine (simulationStep now deltaTime rnds st) := by
  by_cases hend : st.gs.session.elapsedTime ≥ st.gs.session.duration
  · simp only [simulationStep, stripEngine_gs, stripGS_session, if_pos hend]
    rfl
  · simp only [simulationStep, stripEngine_gs, stripEngine_rng, stripGS_session,
      stripGS_pendingOrders, stripGS_completedOrders, stripGS_totalOrdersGenerated,
      stripGS_gameEvents, stripGS_departments, if_neg hend, generateNewOrders_strip,
      processDepartmentUpdates_strip, stripAcc_updatedDepartments,
      stripAcc_completedOrders, stripAcc_events, stripAcc_rnds, utilRates_strip,
      bottleneck_strip]
    rfl

/-- C10: the tick never reads a department's capacity — stripping every
capacity to 0 commutes with simulationStep, so two engine states that
agree on everything except department capacities produce ticks that
again agree on everything except department capacities (identical
queues, inProcess slots, utilizations, statuses, completed orders and
events); and a department whose single inProcess slot is occupied never
dequeues further work in the same tick, so at most one order is
processed at a time regardless of capacity. -/
theorem c10_capacity_noninterference :
    (∀ (now deltaTime : ℚ) (rnds : List ℚ) (st1 st2 : EngineState),
      stripEngine st1 = stripEngine st2 →
      stripEngine (simulationStep now deltaTime rnds st1) =
        stripEngine (simulationStep now deltaTime rnds st2)) ∧
    (∀ (now : ℚ) (dept : Department) (o : Order),
      dept.inProcess = some o → startNextOrder now dept = dept) := by
  refine ⟨?_, ?_⟩
  · intro now deltaTime rnds st1 st2 h
    rw [← simulationStep_strip, ← simulationStep_strip, h]
  · intro now dept o h
    simp [startNextOrder, h]

/-- A copy of c4State whose departments all claim capacity 77. -/
def c10AltState : GameState :=
  { c4State with departments := c4State.departments.map (fun d => { d with capacity := 77 }) }

/-- Witness for C10: the c4 state and its capacity-77 copy agree after
stripping, and one tick keeps them in agreement after stripping. -/
theorem c10_capacity_witness :
    stripEngine ⟨c4State, 42⟩ = stripEngine ⟨c10AltState, 42⟩ ∧
    stripEngine (simulationStep 1000 1000 [] ⟨c4State, 42⟩) =
      stripEngine (simulationStep 1000 1000 [] ⟨c10AltState, 42⟩) :=
  ⟨by decide, c10_capacity_noninterference.1 1000 1000 [] ⟨c4State, 42⟩ ⟨c10AltState, 42⟩
    (by decide)⟩


/-! ### C1: state initialization (src/utils/gameInitialization.ts) -/

/-- JS loop count of `for (let i = 0; i < bound; i++)` with a
fractional bound: the number of naturals below bound, i.e. ⌈bound⌉
clamped at 0 (ceil written through the floor of the negation). -/
def loopCount (q : ℚ) : Nat := (-(jsFloor (jsSub 0 q))).toNat

/-- generateRandomDepartmentConfig: four draws — floored capacity in
[80,120), efficiency in [0.8,1.2), equipment condition in [0.95,1.0),
floored avgCycleTime in [15,60) (the last is never used by the
caller). -/
def generateRandomDepartmentConfig (s : Nat) : (ℚ × ℚ × ℚ × ℚ) × Nat :=
  let c := rngBetween s 80 120
  let e := rngBetween c.2 (mkRat 8 10) (mkRat 12 10)
  let q := rngBetween e.2 (mkRat 95 100) 1
  let a := rngBetween q.2 15 60
  ((jsOfInt (jsFloor c.1), e.1, q.1, jsOfInt (jsFloor a.1)), a.2)

/-- The static base-department table of initializeDepartments. -/
structure BaseDept where
  id : ℤ
  name : String
  standardProcessingTime : ℚ
  operations : List DeptOperation

def baseDepartments : List BaseDept :=
  [{ id := 1, name := "Cutting & Prep", standardProcessingTime := 15,
     operations := [
       { id := "cut-1", name := "Material Cutting", duration := 8,
         description := "Cut raw materials to specifications" },
       { id := "prep-1", name := "Surface Preparation", duration := 7,
         description := "Clean and prepare surfaces for assembly" }] },
   { id := 2, name := "Assembly", standardProcessingTime := 25,
     operations := [
       { id := "asm-1", name := "Component Assembly", duration := 25,
         description := "Assemble components according to specifications" }] },
   { id := 3, name := "Quality Control", standardProcessingTime := 12,
     operations := [
       { id := "qc-1", name := "Initial Inspection", duration := 7,
         description := "Visual and dimensional inspection" },
       { id := "qc-2", name := "Function Testing", duration := 5,
         description := "Test product functionality and performance" }] },
   { id := 4, name := "Packaging & Ship", standardProcessingTime := 8,
     operations := [
       { id := "pack-1", name := "Final Packaging", duration := 8,
         description := "Package product for shipment" }] }]

/-- One department of initializeDepartments: config (4 draws), floored
utilization in [40,85), avgCycleTime copied from the standard time,
floored totalProcessed in [15,35), then an 80% available / 20% busy
status draw. -/
def initDept (b : BaseDept) (s : Nat) : Department × Nat :=
  let cfg := generateRandomDepartmentConfig s
  let u := rngBetween cfg.2 40 85
  let tp := rngBetween u.2 15 35
  let st := rngNext tp.2
  ({ id := b.id, name := b.name, queue := [], inProcess := none,
     utilization := jsOfInt (jsFloor u.1),
     avgCycleTime := b.standardProcessingTime,
     totalProcessed := (jsFloor tp.1).toNat,
     capacity := cfg.1.1, efficiency := cfg.1.2.1,
     equipmentCondition := cfg.1.2.2.1,
     status := if st.1 < mkRat 8 10 then DeptStatus.available else DeptStatus.busy,
     operations := b.operations,
     standardProcessingTime := b.standardProcessingTime }, st.2)

/-- initializeDepartments: a fresh SeededRandom threaded through the
four base departments. -/
def initializeDepartments (settings : GameSettings) (ambient : Nat) : List Department :=
  let s0 := resolveSeed settings.randomSeed ambient
  (baseDepartments.foldl (fun acc b =>
    let d := initDept b acc.2
    (acc.1 ++ [d.1], d.2)) (([] : List Department), s0)).1

/-- One order of generateInitialOrders: a random route then a due date
60-180 minutes out. -/
def mkInitialOrder (now : ℚ) (tier : String) (i : Nat) (s : Nat) : Order × Nat :=
  let r := generateRandomRoute s tier
  let d := rngBetween r.2 60 180
  ({ id := "ORD-" ++ padStart3 (i + 1),
     dueDate := jsAdd now (jsMul (jsMul d.1 60) 1000),
     route := r.1, currentStepIndex := -1, status := OrderStatus.queued,
     timestamps := [], reworkCount := 0, createdAt := now,
     slaStatus := some SlaStatus.onTrack }, d.2)

def genInitialOrdersAux (now : ℚ) (tier : String) : Nat → Nat → Nat → List Order × Nat
  | 0, _, s => ([], s)
  | n + 1, i, s =>
    let o := mkInitialOrder now tier i s
    let rest := genInitialOrdersAux now tier n (i + 1) o.2
    (o.1 :: rest.1, rest.2)

/-- generateInitialOrders: a fresh SeededRandom, a fractional order
count by tier, and ⌈count⌉ loop iterations. -/
def generateInitialOrders (now : ℚ) (settings : GameSettings) (ambient : Nat) :
    List Order :=
  let s0 := resolveSeed settings.randomSeed ambient
  let oc :=
    if settings.complexityLevel = "beginner" then rngBetween s0 3 6
    else if settings.complexityLevel = "intermediate" then rngBetween s0 5 10
    else rngBetween s0 8 15
  (genInitialOrdersAux now settings.complexityLevel (loopCount oc.1) 0 oc.2).1

/-- generateTimestamps: one closed 20-minute span per already-completed
step, counted backwards from now. -/
def generateTimestamps (now : ℚ) (completedSteps : List ℤ) : List Stamp :=
  completedSteps.enum.map (fun p =>
    { deptId := p.2,
      start := jsSub now (jsMul (jsMul (jsMul
        (jsSub (jsOfNat completedSteps.length) (jsOfNat p.1)) 20) 60) 1000),
      endT := some (jsSub now (jsMul (jsMul (jsMul
        (jsSub (jsSub (jsOfNat completedSteps.length) (jsOfNat p.1)) 1) 20) 60) 1000)) })

/-- The nested slaStatus ternary of generateInitialWIP: one draw, and a
second one only when the first fails the 0.7 test. -/
def wipSla (s : Nat) : Option SlaStatus × Nat :=
  let p1 := rngNext s
  if p1.1 < mkRat 7 10 then (some SlaStatus.onTrack, p1.2)
  else
    let p2 := rngNext p1.2
    if p2.1 < mkRat 8 10 then (some SlaStatus.atRisk, p2.2)
    else (some SlaStatus.overdue, p2.2)

/-- One order of generateInitialWIP, status always processing, placed
at a floored random step of its route. -/
def mkWipOrder (now : ℚ) (tier : String) (i : Nat) (s : Nat) : Order × Nat :=
  let r := generateRandomRoute s tier
  let cs := rngBetween r.2 0 (jsOfNat r.1.length)
  let dd := rngBetween cs.2 30 120
  let ca := rngBetween dd.2 10 60
  let pt := rngBetween ca.2 15 45
  let ptr := rngBetween pt.2 5 30
  let sla := wipSla ptr.2
  ({ id := "WIP-" ++ padStart3 (i + 1),
     dueDate := jsAdd now (jsMul (jsMul dd.1 60) 1000),
     route := r.1,
     currentStepIndex := jsFloor cs.1,
     status := OrderStatus.processing,
     timestamps := generateTimestamps now (r.1.take ((jsFloor cs.1).toNat + 1)),
     reworkCount := 0,
     createdAt := jsSub now (jsMul (jsMul ca.1 60) 1000),
     processingTime := some (jsOfInt (jsFloor pt.1)),
     processingTimeRemaining := some (jsOfInt (jsFloor ptr.1)),
     currentDepartment := r.1.get? (jsFloor cs.1).toNat,
     slaStatus := sla.1 }, sla.2)

def genWipAux (now : ℚ) (tier : String) : Nat → Nat → Nat → List Order × Nat
  | 0, _, s => ([], s)
  | n + 1, i, s =>
    let o := mkWipOrder now tier i s
    let rest := genWipAux now tier n (i + 1) o.2
    (o.1 :: rest.1, rest.2)

/-- generateInitialWIP: fractional tier-dependent count, ⌈count⌉ orders. -/
def generateInitialWIP (now : ℚ) (s : Nat) (tier : String) : List Order :=
  let wc :=
    if tier = "beginner" then rngBetween s 2 4
    else if tier = "intermediate" then rngBetween s 4 8
    else rngBetween s 6 12
  (genWipAux now tier (loopCount wc.1) 0 wc.2).1

/-- The find-then-mutate of the WIP distribution loop: overwrite the
first matching department's inProcess slot for a processing order, or
push to its queue otherwise. -/
def setFirstDept (cd : ℤ) (o : Order) : List Department → List Department
  | [] => []
  | d :: ds =>
    if d.id = cd then
      (if o.status = OrderStatus.processing then { d with inProcess := some o }
       else { d with queue := d.queue ++ [o] }) :: ds
    else d :: setFirstDept cd o ds

/-- One iteration of the wipOrders.forEach distribution loop; a missing
or 0-valued (falsy) currentDepartment skips the order entirely. -/
def placeWip (depts : List Department) (o : Order) : List Department :=
  match o.currentDepartment with
  | none => depts
  | some cd => if cd = 0 then depts else setFirstDept cd o depts

/-- createGameSession. -/
def createGameSession (now : ℚ) (settings : GameSettings) : GameSession :=
  { id := "session-" ++ toString now,
    duration := jsMul (jsMul settings.sessionDuration 60) 1000,
    status := SessionStatus.setup, settings := settings, elapsedTime := 0 }

/-- initializeGameState: the three SeededRandom constructions inside
(the outer one, initializeDepartments, generateInitialOrders) each
resolve the settings seed, falling back to their own ambient draw when
no seed is set. -/
def initializeGameState (now : ℚ) (settings : GameSettings)
    (amb0 amb1 amb2 : Nat) : GameState :=
  let s0 := resolveSeed settings.randomSeed amb0
  let session := createGameSession now settings
  let departments := initializeDepartments settings amb1
  let pendingOrders := generateInitialOrders now settings amb2
  let wipOrders := generateInitialWIP now s0 settings.complexityLevel
  let departments2 := wipOrders.foldl placeWip departments
  { session := session,
    departments := departments2,
    pendingOrders := pendingOrders,
    completedOrders := [],
    rejectedOrders := [],
    totalOrdersGenerated := pendingOrders.length + wipOrders.length,
    gameEvents := [{
      id := "event-" ++ toString now,
      type := "order-generated",
      timestamp := now,
      message := "Game initialized with " ++ toString pendingOrders.length ++
        " pending orders and " ++ toString wipOrders.length ++ " WIP orders",
      severity := "info" }],
    performance := {
      onTimeDeliveryRate := 0
      averageLeadTime := 0
      totalThroughput := 0
      utilizationRates := departments2.map (fun d => (d.id, d.utilization)) },
    decisions := [] }

/-- The conserved quantity of the spec: pending + queued + in-process
+ completed + rejected. -/
def conservationSum (gs : GameState) : Nat :=
  gs.pendingOrders.length +
    gs.departments.foldl
      (fun acc d => acc + d.queue.length + (if d.inProcess.isSome then 1 else 0)) 0 +
    gs.completedOrders.length + gs.rejectedOrders.length

def c1Settings : GameSettings :=
  { sessionDuration := 30, orderGenerationRate := "medium",
    complexityLevel := "advanced", randomSeed := some "a", gameSpeed := 1,
    enableEvents := true }


set_option maxRecDepth 10000 in
/-- C1: order conservation is already violated by the very first
reachable state.  With seed "a" and the advanced tier,
initializeGameState generates 9 pending and 7 WIP orders and counts
all 16 in totalOrdersGenerated, but the WIP distribution loop writes
each processing WIP order straight into its department's single
inProcess slot, overwriting earlier arrivals: only 4 survive, so the
conserved sum is 13 < 16. -/
theorem c1_conservation_violated_at_init :
    conservationSum (initializeGameState 0 c1Settings 0 0 0) <
      (initializeGameState 0 c1Settings 0 0 0).totalOrdersGenerated := by
  decide


/-! ### C2: random events and run determinism (part_000 generateRandomEvents) -/

/-- Erase the Math.random()-bearing id of an event. -/
def stripEventId (e : GameEvent) : GameEvent := { e with id := "" }

/-- One event block threads the seeded rng state and the ambient
Math.random() oracle and may emit events. -/
def runBlock (blk : Nat → List ℚ → List GameEvent × Nat × List ℚ)
    (acc : List GameEvent × Nat × List ℚ) : List GameEvent × Nat × List ℚ :=
  let r := blk acc.2.1 acc.2.2
  (acc.1 ++ r.1, r.2)

/-- Equipment-failure block (0.1% per tick): one seeded trigger draw,
then a seeded choice over the non-maintenance departments; the ambient
draw happens only when an event is actually pushed.  A choice over an
empty list yields undefined in the source (and the push would throw on
undefined.name); it is modelled as pushing nothing. -/
def evEquip (now : ℚ) (departments : List Department) (s : Nat) (rnds : List ℚ) :
    List GameEvent × Nat × List ℚ :=
  let p1 := rngNext s
  if p1.1 < mkRat 1 1000 then
    let c := rngChoice p1.2 (departments.filter (fun d => d.status ≠ DeptStatus.maintenance))
    match c.1 with
    | some affectedDept =>
      let p := drawRnd rnds
      ([{ id := mkEventId now p.1, type := "equipment-failure", timestamp := now,
          message := "Equipment failure in " ++ affectedDept.name ++

            "! Processing slowed by 50%",
          severity := "error", departmentId := some affectedDept.id }], c.2, p.2)
    | none => ([], c.2, rnds)
  else ([], p1.2, rnds)

/-- Rush-order block (0.05% per tick). -/
def evRush (now : ℚ) (s : Nat) (rnds : List ℚ) : List GameEvent × Nat × List ℚ :=
  let p := rngNext s
  if p.1 < mkRat 5 10000 then
    let a := drawRnd rnds
    ([{ id := mkEventId now a.1, type := "rush-order", timestamp := now,
        message := "Rush order received! Tight deadline requires priority handling",
        severity := "warning" }], p.2, a.2)
  else ([], p.2, rnds)

/-- Delivery-delay block (0.02% per tick). -/
def evDelay (now : ℚ) (s : Nat) (rnds : List ℚ) : List GameEvent × Nat × List ℚ :=
  let p := rngNext s
  if p.1 < mkRat 2 10000 then
    let a := drawRnd rnds
    ([{ id := mkEventId now a.1, type := "delivery-delay", timestamp := now,
        message := "Material delivery delayed. Some departments may experience shortages",
        severity := "warning" }], p.2, a.2)
  else ([], p.2, rnds)

/-- Efficiency-boost block (0.03% per tick): seeded choice over all
departments; the empty-department case (undefined.name in the source)
is modelled as pushing nothing. -/
def evBoost (now : ℚ) (departments : List Department) (s : Nat) (rnds : List ℚ) :
    List GameEvent × Nat × List ℚ :=
  let p1 := rngNext s
  if p1.1 < mkRat 3 10000 then
    let c := rngChoice p1.2 departments
    match c.1 with
    | some boostedDept =>
      let p := drawRnd rnds
      ([{ id := mkEventId now p.1, type := "efficiency-boost", timestamp := now,
          message := boostedDept.name ++ " running at peak efficiency! 25% speed boost",
          severity := "success", departmentId := some boostedDept.id }], c.2, p.2)
    | none => ([], c.2, rnds)
  else ([], p1.2, rnds)

/-- generateRandomEvents (part_000 lines 123-180): the four blocks in
source order, threading the seeded rng and the ambient oracle. -/
def generateRandomEvents (enableEvents : Bool) (now : ℚ) (rnds : List ℚ) (s : Nat)
    (departments : List Department) : List GameEvent × Nat × List ℚ :=
  if enableEvents then
    runBlock (evBoost now departments) (runBlock (evDelay now) (runBlock (evRush now)
      (runBlock (evEquip now departments) ([], s, rnds))))
  else ([], s, rnds)

/-- C2 counterexample: two engines with the same seed state (396), the
same settings, the same departments and the same tick instant, but
different ambient Math.random() draws, emit different event logs: the
equipment-failure event ids embed the ambient draw. -/
theorem c2_counterexample :
    (generateRandomEvents true 0 [0] 396 [c4Dept]).1 ≠
      (generateRandomEvents true 0 [1] 396 [c4Dept]).1 := by
  decide


/-- Ambient-oblivious view of a block result: events without ids, and
the seeded rng state. -/
def obsBlock (r : List GameEvent × Nat × List ℚ) : List GameEvent × Nat :=
  (r.1.map stripEventId, r.2.1)

lemma evEquip_obs (now : ℚ) (departments : List Department) (s : Nat)
    (rnds1 rnds2 : List ℚ) :
    obsBlock (evEquip now departments s rnds1) = obsBlock (evEquip now departments s rnds2) := by
  by_cases h1 : (rngNext s).1 < mkRat 1 1000
  · cases hc : (rngChoice (rngNext s).2
        (departments.filter (fun d => d.status ≠ DeptStatus.maintenance))).1 with
    | none =>
      simp only [ne_eq, decide_not] at hc
      simp [evEquip, obsBlock, h1, hc]
    | some d =>
      simp only [ne_eq, decide_not] at hc
      simp [evEquip, obsBlock, stripEventId, h1, hc, drawRnd]
  · simp [evEquip, obsBlock, h1]

lemma evRush_obs (now : ℚ) (s : Nat) (rnds1 rnds2 : List ℚ) :
    obsBlock (evRush now s rnds1) = obsBlock (evRush now s rnds2) := by
  by_cases h : (rngNext s).1 < mkRat 5 10000
  · simp [evRush, obsBlock, stripEventId, h, drawRnd]
  · simp [evRush, obsBlock, h]

lemma evDelay_obs (now : ℚ) (s : Nat) (rnds1 rnds2 : List ℚ) :
    obsBlock (evDelay now s rnds1) = obsBlock (evDelay now s rnds2) := by
  by_cases h : (rngNext s).1 < mkRat 2 10000
  · simp [evDelay, obsBlock, stripEventId, h, drawRnd]
  · simp [evDelay, obsBlock, h]

lemma evBoost_obs (now : ℚ) (departments : List Department) (s : Nat)
    (rnds1 rnds2 : List ℚ) :
    obsBlock (evBoost now departments s rnds1) = obsBlock (evBoost now departments s rnds2) := by
  by_cases h1 : (rngNext s).1 < mkRat 3 10000
  · cases hc : (rngChoice (rngNext s).2 departments).1 with
    | none => simp [evBoost, obsBlock, h1, hc]
    | some d => simp [evBoost, obsBlock, stripEventId, h1, hc, drawRnd]
  · simp [evBoost, obsBlock, h1]

lemma runBlock_obs (blk : Nat → List ℚ → List GameEvent × Nat × List ℚ)
    (hblk : ∀ s r1 r2, obsBlock (blk s r1) = obsBlock (blk s r2))
    (acc1 acc2 : List GameEvent × Nat × List ℚ)
    (he : acc1.1.map stripEventId = acc2.1.map stripEventId)
    (hs : acc1.2.1 = acc2.2.1) :
    obsBlock (runBlock blk acc1) = obsBlock (runBlock blk acc2) := by
  have h := hblk acc2.2.1 acc1.2.2 acc2.2.2
  have h1 := congrArg Prod.fst h
  have h2 := congrArg (fun t => t.2) h
  simp only [obsBlock] at h1 h2
  simp only [runBlock, obsBlock, List.map_append, he, hs, Prod.mk.injEq]
  exact ⟨by rw [h1], h2⟩

lemma generateRandomEvents_obs (enableEvents : Bool) (now : ℚ) (s : Nat)
    (departments : List Department) (rnds1 rnds2 : List ℚ) :
    obsBlock (generateRandomEvents enableEvents now rnds1 s departments) =
      obsBlock (generateRandomEvents enableEvents now rnds2 s departments) := by
  cases enableEvents with
  | false => rfl
  | true =>
    have h1 := runBlock_obs (evEquip now departments)
      (fun a b c => evEquip_obs now departments a b c)
      ([], s, rnds1) ([], s, rnds2) rfl rfl
    have h2 := runBlock_obs (evRush now) (fun a b c => evRush_obs now a b c)
      (runBlock (evEquip now departments) ([], s, rnds1))
      (runBlock (evEquip now departments) ([], s, rnds2))
      (congrArg Prod.fst h1) (congrArg (fun t => t.2) h1)
    have h3 := runBlock_obs (evDelay now) (fun a b c => evDelay_obs now a b c)
      (runBlock (evRush now) (runBlock (evEquip now departments) ([], s, rnds1)))
      (runBlock (evRush now) (runBlock (evEquip now departments) ([], s, rnds2)))
      (congrArg Prod.fst h2) (congrArg (fun t => t.2) h2)
    have h4 := runBlock_obs (evBoost now departments)
      (fun a b c => evBoost_obs now departments a b c)
      (runBlock (evDelay now) (runBlock (evRush now)
        (runBlock (evEquip now departments) ([], s, rnds1))))
      (runBlock (evDelay now) (runBlock (evRush now)
        (runBlock (evEquip now departments) ([], s, rnds2))))
      (congrArg Prod.fst h3) (congrArg (fun t => t.2) h3)
    simpa [generateRandomEvents] using h4

/-- Ambient-oblivious view of a PDU accumulator: departments, completed
orders, events without their Math.random() ids. -/
def obsAcc (a : PDUAcc) : List Department × List Order × List GameEvent :=
  (a.updatedDepartments, a.completedOrders, a.events.map stripEventId)

lemma advanceInProcess_obs (now : ℚ) (deps : List Department) (dept : Department)
    (acc1 acc2 : PDUAcc)
    (hu : acc1.updatedDepartments = acc2.updatedDepartments)
    (hc : acc1.completedOrders = acc2.completedOrders)
    (he : acc1.events.map stripEventId = acc2.events.map stripEventId) :
    ((advanceInProcess now deps dept acc1).1,
        obsAcc (advanceInProcess now deps dept acc1).2) =
      ((advanceInProcess now deps dept acc2).1,
        obsAcc (advanceInProcess now deps dept acc2).2) := by
  cases hip : dept.inProcess with
  | none => simp [advanceInProcess, obsAcc, hip, hu, hc, he]
  | some order =>
    by_cases ht : jsSub (order.processingTimeRemaining.getD 0) 1000 ≤ 0
    · by_cases hni : order.currentOperationIndex.getD 0 + 1 < dept.operations.length
      · cases hop : dept.operations[order.currentOperationIndex.getD 0]? <;>
          cases hpr : order.operationProgress <;>
          simp [advanceInProcess, obsAcc, hip, ht, hni, hop, hpr, hu, hc, he]
      · by_cases hns : order.currentStepIndex + 1 ≥ (order.route.length : ℤ)
        · cases hop : dept.operations[order.currentOperationIndex.getD 0]? <;>
            cases hpr : order.operationProgress <;>
            simp [advanceInProcess, obsAcc, stripEventId, drawRnd, hip, ht, hni, hns,
              hop, hpr, hu, hc, he]
        · by_cases hz : (0 : ℤ) ≤ order.currentStepIndex + 1
          · cases hnid : order.route[(order.currentStepIndex + 1).toNat]? with
            | none =>
              cases hop : dept.operations[order.currentOperationIndex.getD 0]? <;>
                cases hpr : order.operationProgress <;>
                simp [advanceInProcess, obsAcc, hip, ht, hni, hns, hz, hnid, hop, hpr,
                  hu, hc, he]
            | some nid =>
              cases hfd : deps.find? (fun d => d.id = nid) with
              | none =>
                cases hop : dept.operations[order.currentOperationIndex.getD 0]? <;>
                  cases hpr : order.operationProgress <;>
                  simp [advanceInProcess, obsAcc, hip, ht, hni, hns, hz, hnid, hop,
                    hpr, hfd, hu, hc, he]
              | some nextDept =>
                cases hop : dept.operations[order.currentOperationIndex.getD 0]? <;>
                  cases hpr : order.operationProgress <;>
                  simp [advanceInProcess, obsAcc, hip, ht, hni, hns, hz, hnid, hop,
                    hpr, hfd, hu, hc, he]
          · cases hop : dept.operations[order.currentOperationIndex.getD 0]? <;>
              cases hpr : order.operationProgress <;>
              simp [advanceInProcess, obsAcc, hip, ht, hni, hns, hz, hop, hpr, hu,
                hc, he]
    · simp [advanceInProcess, obsAcc, hip, ht, hu, hc, he]

lemma processOneDept_obs (now : ℚ) (deps : List Department) (acc1 acc2 : PDUAcc)
    (dept : Department) (h : obsAcc acc1 = obsAcc acc2) :
    obsAcc (processOneDept now deps acc1 dept) =
      obsAcc (processOneDept now deps acc2 dept) := by
  have hu : acc1.updatedDepartments = acc2.updatedDepartments :=
    congrArg (fun t => t.1) h
  have hc : acc1.completedOrders = acc2.completedOrders :=
    congrArg (fun t => t.2.1) h
  have he : acc1.events.map stripEventId = acc2.events.map stripEventId :=
    congrArg (fun t => t.2.2) h
  have ha := advanceInProcess_obs now deps dept acc1 acc2 hu hc he
  have ha1 : (advanceInProcess now deps dept acc1).1 =
      (advanceInProcess now deps dept acc2).1 := congrArg (fun t => t.1) ha
  have ha2 : obsAcc (advanceInProcess now deps dept acc1).2 =
      obsAcc (advanceInProcess now deps dept acc2).2 := congrArg (fun t => t.2) ha
  have hau : (advanceInProcess now deps dept acc1).2.updatedDepartments =
      (advanceInProcess now deps dept acc2).2.updatedDepartments :=
    congrArg (fun t => t.1) ha2
  have hac : (advanceInProcess now deps dept acc1).2.completedOrders =
      (advanceInProcess now deps dept acc2).2.completedOrders :=
    congrArg (fun t => t.2.1) ha2
  have hae : (advanceInProcess now deps dept acc1).2.events.map stripEventId =
      (advanceInProcess now deps dept acc2).2.events.map stripEventId :=
    congrArg (fun t => t.2.2) ha2
  simp only [processOneDept, obsAcc, ha1, hau, hac, hae]
  by_cases hf : (((advanceInProcess now deps dept acc2).2.updatedDepartments.find?
      (fun d => d.id = dept.id)).isSome)
  · simp [hf, hau, hac, hae]
  · simp [hf, hau, hac, hae]

lemma foldl_processOneDept_obs (now : ℚ) (deps l : List Department)
    (acc1 acc2 : PDUAcc) (h : obsAcc acc1 = obsAcc acc2) :
    obsAcc (l.foldl (processOneDept now deps) acc1) =
      obsAcc (l.foldl (processOneDept now deps) acc2) := by
  induction l generalizing acc1 acc2 with
  | nil => exact h
  | cons d ds ih =>
    simp only [List.foldl_cons]
    exact ih _ _ (processOneDept_obs now deps acc1 acc2 d h)

lemma processDepartmentUpdates_obs (now : ℚ) (rnds1 rnds2 : List ℚ)
    (deps : List Department) :
    obsAcc (processDepartmentUpdates now rnds1 deps) =
      obsAcc (processDepartmentUpdates now rnds2 deps) := by
  simp only [processDepartmentUpdates]
  exact foldl_processOneDept_obs now deps deps _ _ rfl

lemma sliceLast50_map {α β : Type} (f : α → β) (l : List α) :
    (sliceLast50 l).map f = sliceLast50 (l.map f) := by
  simp [sliceLast50, List.map_drop]


/-- C2 (amended): with a fixed seed the engine's seeded randomness is
fully reproducible, but the ambient Math.random() draws embedded in
event-id strings are not part of the seeded stream.  Two runs with the
same seed state, settings, departments and tick instant that differ
only in the ambient draws produce: (1) random-event batches equal in
every field except the event ids, with identical final seeded rng
states; and (2) ticks with identical performance snapshots, pending
orders, departments, completed orders and next rng seeds, and event
logs equal up to the event ids. -/
theorem c2_determinism_amended :
    (∀ (enableEvents : Bool) (now : ℚ) (s : Nat) (departments : List Department)
       (rnds1 rnds2 : List ℚ),
      obsBlock (generateRandomEvents enableEvents now rnds1 s departments) =
        obsBlock (generateRandomEvents enableEvents now rnds2 s departments)) ∧
    (∀ (now deltaTime : ℚ) (rnds1 rnds2 : List ℚ) (st : EngineState),
      (simulationStep now deltaTime rnds1 st).gs.performance =
        (simulationStep now deltaTime rnds2 st).gs.performance ∧
      (simulationStep now deltaTime rnds1 st).gs.pendingOrders =
        (simulationStep now deltaTime rnds2 st).gs.pendingOrders ∧
      (simulationStep now deltaTime rnds1 st).gs.departments =
        (simulationStep now deltaTime rnds2 st).gs.departments ∧
      (simulationStep now deltaTime rnds1 st).gs.completedOrders =
        (simulationStep now deltaTime rnds2 st).gs.completedOrders ∧
      (simulationStep now deltaTime rnds1 st).gs.gameEvents.map stripEventId =
        (simulationStep now deltaTime rnds2 st).gs.gameEvents.map stripEventId ∧
      (simulationStep now deltaTime rnds1 st).rng =
        (simulationStep now deltaTime rnds2 st).rng) := by
  refine ⟨fun enableEvents now s departments rnds1 rnds2 =>
    generateRandomEvents_obs enableEvents now s departments rnds1 rnds2, ?_⟩
  intro now deltaTime rnds1 rnds2 st
  by_cases hend : st.gs.session.elapsedTime ≥ st.gs.session.duration
  · refine ⟨?_, ?_, ?_, ?_, ?_, ?_⟩ <;> simp [simulationStep, hend]
  · have h := processDepartmentUpdates_obs now rnds1 rnds2 st.gs.departments
    have hu : (processDepartmentUpdates now rnds1 st.gs.departments).updatedDepartments =
        (processDepartmentUpdates now rnds2 st.gs.departments).updatedDepartments :=
      congrArg (fun t => t.1) h
    have hc : (processDepartmentUpdates now rnds1 st.gs.departments).completedOrders =
        (processDepartmentUpdates now rnds2 st.gs.departments).completedOrders :=
      congrArg (fun t => t.2.1) h
    have he : (processDepartmentUpdates now rnds1 st.gs.departments).events.map
          stripEventId =
        (processDepartmentUpdates now rnds2 st.gs.departments).events.map stripEventId :=
      congrArg (fun t => t.2.2) h
    refine ⟨?_, ?_, ?_, ?_, ?_, ?_⟩
    · simp only [simulationStep, if_neg hend, hu, hc]
    · simp only [simulationStep, if_neg hend]
    · simp only [simulationStep, if_neg hend, hu]
    · simp only [simulationStep, if_neg hend, hc]
    · simp only [simulationStep, if_neg hend, sliceLast50_map, List.map_append, he]
    · simp only [simulationStep, if_neg hend]


end M2M
